import Mathlib

/-!
# Hotel booking backend (`src/server.js`)

A shallow embedding of the request handlers of `server.js` and of the four
collections they read and write (users, hotels, feedbacks, bookings).

Modelling conventions
* A collection is a list of documents in store order; `find` is `List.filter`,
  `findOne` / `findById` return the first match (`List.find?`).
* JavaScript numbers are IEEE 754 doubles, `Dbl`: a finite value is the
  rational it denotes, `/` and `*` round the exact result to the nearest double
  (ties to even, overflow to an infinity), `Math.ceil` is exact.  The sign of
  zero is not modelled: `-0` and `0` are `===` and print as the same JSON.
* A request body is a JavaScript object.  Its values are the primitives and,
  as `JsVal.other`, the objects and arrays, kept as their JSON text; what the
  libraries do with an object or an array (query operators, coercions) is a
  parameter.
* Library functions whose results the source does not determine are fields of
  `Lib`: `jwt.verify`, `jwt.sign`, `Number(string)`, `String(number)`, the cast
  of a value to a date and to an ObjectId, the meaning of a query operator.
* A handler is a function from the store and the request to the response and
  the store after the call.  A thrown exception is the `none` of an `Option`
  and is handled at the `catch` of the handler that raised it.
* Keys of an object passed to a model constructor that are not paths of its
  schema are dropped (strict mode); the paths are the declared ones, `_id` and
  `__v`.
-/

namespace HotelBackend

/-! ## Numbers -/

/-- IEEE 754 double-precision values. -/
inductive Dbl
  | fin (q : ℚ)
  | inf (neg : Bool)
  | nan
  deriving DecidableEq, Repr

/-- Rounding to the nearest integer, ties to the even one. -/
def rne (y : ℚ) : ℤ :=
  if y - ⌊y⌋ < 1 / 2 then ⌊y⌋
  else if 1 / 2 < y - ⌊y⌋ then ⌊y⌋ + 1
  else if ⌊y⌋ % 2 = 0 then ⌊y⌋ else ⌊y⌋ + 1

def log2Fuel : Nat → Nat → Nat
  | 0, _ => 0
  | fuel + 1, n => if 2 ≤ n then log2Fuel fuel (n / 2) + 1 else 0

/-- The floor of the binary logarithm of a positive natural number. -/
def log2 (n : Nat) : Nat := log2Fuel n n

/-- The binary exponent of a non-zero rational: `2 ^ e ≤ |q| < 2 ^ (e + 1)`. -/
def expo (q : ℚ) : ℤ :=
  let c : ℤ := (log2 q.num.natAbs : ℤ) - (log2 q.den : ℤ)
  if (2 : ℚ) ^ c ≤ |q| then c else c - 1

/-- Rounding of an exact result to a double: 53 significant bits, exponents
from -1022 (below it the spacing stays `2 ^ (-1074)`), nearest value with ties
to even, and an infinity from `2 ^ 1024` on. -/
def roundDouble (q : ℚ) : Dbl :=
  if q = 0 then .fin 0
  else
    let e := max (expo q) (-1022)
    let r : ℚ := rne (q / 2 ^ (e - 52)) * 2 ^ (e - 52)
    if 2 ^ 1024 ≤ |r| then .inf (decide (q < 0)) else .fin r

/-- The quotient `a / b` of two numbers. -/
def jsDiv : Dbl → Dbl → Dbl
  | .nan, _ => .nan
  | _, .nan => .nan
  | .inf _, .inf _ => .nan
  | .inf s, .fin b => .inf (s != decide (b < 0))
  | .fin _, .inf _ => .fin 0
  | .fin a, .fin b =>
    if b = 0 then (if a = 0 then .nan else .inf (decide (a < 0)))
    else roundDouble (a / b)

/-- The value of `Math.ceil(x)`. -/
def jsCeil : Dbl → Dbl
  | .fin q => .fin ⌈q⌉
  | x => x

/-- The product `a * b` of two numbers. -/
def jsMul : Dbl → Dbl → Dbl
  | .nan, _ => .nan
  | _, .nan => .nan
  | .inf s, .inf t => .inf (s != t)
  | .inf s, .fin b => if b = 0 then .nan else .inf (s != decide (b < 0))
  | .fin a, .inf t => if a = 0 then .nan else .inf (decide (a < 0) != t)
  | .fin a, .fin b => roundDouble (a * b)

/-! ## JavaScript values -/

/-- JavaScript values of a parsed JSON body: the primitives, and the objects
and arrays as their JSON text. -/
inductive JsVal
  | undefined
  | null
  | bool (b : Bool)
  | num (x : Dbl)
  | str (s : String)
  | other (json : String)
  deriving DecidableEq, Repr

/-- Truthiness: `!v` is `!(truthy v)`. -/
def truthy : JsVal → Bool
  | .undefined => false
  | .null => false
  | .bool b => b
  | .num (.fin q) => decide (q ≠ 0)
  | .num (.inf _) => true
  | .num .nan => false
  | .str s => decide (s ≠ "")
  | .other _ => true

/-- Strict equality `a === b` of a value of the store or a constant, `a`, and a
value of the body, `b`: `NaN` is not equal to itself, an object or an array is
equal to no other value. -/
def strictEq (a b : JsVal) : Bool :=
  match a with
  | .num .nan => false
  | .other _ => false
  | _ => decide (a = b)

/-- The value after `JSON.stringify` and a parse, for a value sent in a
response: an infinity and `NaN` are sent as `null`. -/
def toJson : JsVal → JsVal
  | .num (.inf _) => .null
  | .num .nan => .null
  | v => v

/-- A JavaScript object: its bindings, looked up from the front. -/
abbrev Obj := List (String × JsVal)

/-- Property read `o.k` (or a destructured `k`): `undefined` when absent. -/
def Obj.field (o : Obj) (k : String) : JsVal :=
  match o.find? (fun p => p.1 == k) with
  | some p => p.2
  | none => .undefined

/-- Property write in an object literal: `k: v` written after what `o` holds. -/
def Obj.set (o : Obj) (k : String) (v : JsVal) : Obj :=
  (k, v) :: o

/-! ## Documents and the store -/

/-- An ObjectId, as its hexadecimal string. -/
abbrev Id := String

abbrev Date := Int

/-- Document of `userSchema`. -/
structure UserDoc where
  _id : Id
  username : String
  name : String
  email : String
  phone : String
  address : String
  aadhar : String
  password : String
  deriving DecidableEq, Repr

/-- Entry of `roomTypes` in `hotelSchema`. -/
structure RoomType where
  type : String
  rate : Dbl
  availability : Bool
  deriving DecidableEq, Repr

/-- Entry of `reviews` in `hotelSchema`. -/
structure Review where
  reviewer : String
  comment : String
  rating : Dbl
  deriving DecidableEq, Repr

/-- Document of `hotelSchema`. -/
structure HotelDoc where
  _id : Id
  name : String
  address : String
  roomTypes : List RoomType
  rating : Dbl
  reviews : List Review
  vacancy : Bool
  images : List String
  deriving DecidableEq, Repr

/-- Document of `feedbackSchema`. -/
structure FeedbackDoc where
  name : String
  feedback : String
  ratings : Dbl
  deriving DecidableEq, Repr

/-- Document of `bookingSchema`. -/
structure BookingDoc where
  _id : Id
  hotelName : String
  hotelAddress : String
  userId : String
  userName : String
  userEmail : String
  userPhone : String
  checkInDate : Date
  checkOutDate : Date
  numGuests : Dbl
  roomType : String
  specialRequests : Option String
  rate : Dbl
  deriving DecidableEq, Repr

/-- The four collections. -/
structure Store where
  users : List UserDoc
  hotels : List HotelDoc
  feedbacks : List FeedbackDoc
  bookings : List BookingDoc
  deriving DecidableEq, Repr

/-! ## Library functions -/

/-- Payload of a token: what `/api/auth/login` signs. -/
structure Payload where
  id : String
  email : String
  deriving DecidableEq, Repr

/-- Library functions taken as parameters. -/
structure Lib where
  /-- Result of `jwt.verify(token, JWT_SECRET)`: the payload, or `none` when it
  throws (bad signature, malformed or expired token). -/
  verify : String → Option Payload
  /-- Result of `jwt.sign(payload, JWT_SECRET, expiresIn)`. -/
  sign : Payload → String → String
  /-- Value of `Number(s)` for a string `s`. -/
  strToNumber : String → Dbl
  /-- Value of `Number(v)` for an object or an array `v`. -/
  otherToNumber : String → Dbl
  /-- Value of `String(x)` for a number `x`. -/
  numToString : Dbl → String
  /-- Cast of a value that is neither null-ish nor `''` to a date; `none` when
  the cast throws. -/
  parseDate : JsVal → Option Date
  /-- Cast of a value to an ObjectId; `none` when the cast throws. -/
  castObjectId : JsVal → Option Id
  /-- Meaning of an object or an array as the filter of a `String` path: the
  strings it selects, or `none` when the query throws. -/
  queryString : String → Option (String → Bool)

/-- The number `ToNumber(v)`, the coercion applied by `/`. -/
def toNumber (lib : Lib) : JsVal → Dbl
  | .undefined => .nan
  | .null => .fin 0
  | .bool b => .fin (if b then 1 else 0)
  | .num x => x
  | .str s => lib.strToNumber s
  | .other j => lib.otherToNumber j

/-! ## Schema casts (`type:` and `required: true`) -/

/-- Cast to a `String` path: `none` when the cast throws (objects and arrays),
`some none` when the value is null-ish (the path is unset). -/
def castString (lib : Lib) : JsVal → Option (Option String)
  | .undefined => some none
  | .null => some none
  | .bool b => some (some (if b then "true" else "false"))
  | .num x => some (some (lib.numToString x))
  | .str s => some (some s)
  | .other _ => none

/-- A `String` path with `required: true`: set and not empty; `none` when
validation fails. -/
def requiredString (lib : Lib) (v : JsVal) : Option String :=
  match castString lib v with
  | some (some s) => if s = "" then none else some s
  | _ => none

/-- Cast to a `Number` path: `none` when the cast throws (a value that casts to
`NaN`, an object, an array), `some none` when the path is unset. -/
def castNumber (lib : Lib) : JsVal → Option (Option Dbl)
  | .undefined => some none
  | .null => some none
  | .bool b => some (some (.fin (if b then 1 else 0)))
  | .num x => if x = .nan then none else some (some x)
  | .str s =>
    if s = "" then some none
    else if lib.strToNumber s = .nan then none else some (some (lib.strToNumber s))
  | .other _ => none

/-- A `Number` path with `required: true`; `none` when validation fails. -/
def requiredNumber (lib : Lib) (v : JsVal) : Option Dbl :=
  match castNumber lib v with
  | some (some x) => some x
  | _ => none

/-- A `Date` path with `required: true`; `none` when validation fails. -/
def requiredDate (lib : Lib) : JsVal → Option Date
  | .undefined => none
  | .null => none
  | .str s => if s = "" then none else lib.parseDate (.str s)
  | v => lib.parseDate v

/-! ## Requests and responses -/

/-- What a handler reads of a request. -/
structure Request where
  /-- Value of `req.headers.authorization`. -/
  authorization : Option String
  /-- Value of `req.params.id`. -/
  paramId : String
  body : Obj

/-- JSON bodies of the responses. -/
inductive ResBody
  | message (m : String)
  | error (m : String)
  | login (m : String) (token : String) (name : String)
  | review (m : String) (reviewer comment rating : JsVal)
  | feedback (f : FeedbackDoc)
  | bookingSaved (m : String) (rate : JsVal)
  | bookings (bs : List BookingDoc)
  deriving DecidableEq, Repr

structure Response where
  status : Nat
  body : ResBody
  deriving DecidableEq, Repr

/-- The segments `s.split(' ')` of the characters of `s`. -/
def splitSpace : List Char → List (List Char)
  | [] => [[]]
  | c :: cs =>
    match splitSpace cs with
    | [] => [[c]]
    | w :: ws => if c = ' ' then [] :: w :: ws else (c :: w) :: ws

/-- The token `req.headers.authorization?.split(' ')[1]`, and `none` when
`!token` holds (header absent, no second segment, or an empty one). -/
def bearerToken (authorization : Option String) : Option String :=
  match authorization with
  | none => none
  | some h =>
    match (splitSpace h.data)[1]? with
    | none => none
    | some t => if t = [] then none else some (String.mk t)

/-- The result of `User.findById(id)`: `none` when the cast of `id` to an
ObjectId throws, `some none` when no user has the id. -/
def findUserById (lib : Lib) (users : List UserDoc) (id : String) : Option (Option UserDoc) :=
  match lib.castObjectId (.str id) with
  | none => none
  | some oid => some (users.find? (fun u => u._id == oid))

/-- The result of `Hotel.findById(id)`: `none` when the cast of `id` to an
ObjectId throws, `some none` when no hotel has the id. -/
def findHotelById (lib : Lib) (hotels : List HotelDoc) (id : String) :
    Option (Option HotelDoc) :=
  match lib.castObjectId (.str id) with
  | none => none
  | some oid => some (hotels.find? (fun h => h._id == oid))

/-- The strings selected by a filter value on a `String` path: those equal to
the cast of a primitive (none for a null-ish value, every document having the
path), those selected by the operators of an object; `none` when the query
throws. -/
def stringFilter (lib : Lib) (v : JsVal) : Option (String → Bool) :=
  match v with
  | .other j => lib.queryString j
  | _ =>
    match castString lib v with
    | some (some e) => some (fun s => s == e)
    | _ => some (fun _ => false)

/-- The result of `User.findOne` filtered on `email`, lines 108 and 126. -/
def findUserByEmail (lib : Lib) (users : List UserDoc) (email : JsVal) :
    Option (Option UserDoc) :=
  match stringFilter lib email with
  | none => none
  | some p => some (users.find? (fun u => p u.email))

/-- The result of `Hotel.findOne` filtered on `name`, line 234. -/
def findHotelByName (lib : Lib) (hotels : List HotelDoc) (hotelName : JsVal) :
    Option (Option HotelDoc) :=
  match stringFilter lib hotelName with
  | none => none
  | some p => some (hotels.find? (fun h => p h.name))

/-! ## `POST /api/bookings` -/

/-- The `divisor` of the rate, line 245. -/
def divisor (roomType : JsVal) : ℚ :=
  if strictEq (.str "Standard") roomType then 2
  else if strictEq (.str "Deluxe") roomType then 3
  else 5

/-- The rate `Math.ceil(numGuests / divisor) * room.rate`, line 246. -/
def bookingRate (lib : Lib) (roomType numGuests : JsVal) (roomRate : Dbl) : Dbl :=
  jsMul (jsCeil (jsDiv (toNumber lib numGuests) (.fin (divisor roomType)))) roomRate

/-- The object literal passed to `new Booking`, lines 249-256: the body is
spread first, the five server-side fields are written after it. -/
def bookingObject (body : Obj) (user : UserDoc) (rate : Dbl) : Obj :=
  ((((body.set "userId" (.str user._id)).set "userName" (.str user.name)).set
    "userEmail" (.str user.email)).set "userPhone" (.str user.phone)).set "rate" (.num rate)

/-- The declared paths of `bookingSchema`, each cast from `o`, in a document
of identifier `id`; `none` when validation throws. -/
def castBookingPaths (lib : Lib) (id : Id) (o : Obj) : Option BookingDoc := do
  let hotelName ← requiredString lib (o.field "hotelName")
  let hotelAddress ← requiredString lib (o.field "hotelAddress")
  let userId ← requiredString lib (o.field "userId")
  let userName ← requiredString lib (o.field "userName")
  let userEmail ← requiredString lib (o.field "userEmail")
  let userPhone ← requiredString lib (o.field "userPhone")
  let checkInDate ← requiredDate lib (o.field "checkInDate")
  let checkOutDate ← requiredDate lib (o.field "checkOutDate")
  let numGuests ← requiredNumber lib (o.field "numGuests")
  let roomType ← requiredString lib (o.field "roomType")
  let specialRequests ← castString lib (o.field "specialRequests")
  let rate ← requiredNumber lib (o.field "rate")
  pure ⟨id, hotelName, hotelAddress, userId, userName, userEmail, userPhone, checkInDate,
    checkOutDate, numGuests, roomType, specialRequests, rate⟩

/-- The `_id` of `new Booking(o)`: the generated `newId` unless `o` has an
`_id`, which is then cast; `none` when the cast throws. -/
def bookingId (lib : Lib) (newId : Id) (o : Obj) : Option Id :=
  match o.field "_id" with
  | .undefined => some newId
  | v => lib.castObjectId v

/-- The document of `new Booking(o)` followed by the validation of `save()`:
the implicit paths `_id` and `__v` and the declared paths are cast; `none` when
validation throws. -/
def castBooking (lib : Lib) (newId : Id) (o : Obj) : Option BookingDoc := do
  let id ← bookingId lib newId o
  let _ ← castNumber lib (o.field "__v")
  castBookingPaths lib id o

/-- The insert of `booking.save()`: refused (it throws) when a stored booking
has the `_id`. -/
def insertBooking (bookings : List BookingDoc) (booking : BookingDoc) :
    Option (List BookingDoc) :=
  if bookings.any (fun b => b._id == booking._id) then none else some (bookings ++ [booking])

/-- Handler of `POST /api/bookings`, lines 212-265; `newId` is the ObjectId
generated for the document. -/
def postBookings (lib : Lib) (newId : Id) (st : Store) (req : Request) : Response × Store :=
  match bearerToken req.authorization with
  | none => (⟨401, .error "No token provided"⟩, st)
  | some token =>
    match lib.verify token with
    | none => (⟨500, .error "Failed to save booking"⟩, st)
    | some decoded =>
      match findUserById lib st.users decoded.id with
      | none => (⟨500, .error "Failed to save booking"⟩, st)
      | some none => (⟨404, .error "User not found"⟩, st)
      | some (some user) =>
        let hotelName := req.body.field "hotelName"
        let roomType := req.body.field "roomType"
        let numGuests := req.body.field "numGuests"
        let checkInDate := req.body.field "checkInDate"
        let checkOutDate := req.body.field "checkOutDate"
        if !truthy hotelName || !truthy roomType || !truthy numGuests || !truthy checkInDate
            || !truthy checkOutDate then
          (⟨400, .error "Missing required fields"⟩, st)
        else
          match findHotelByName lib st.hotels hotelName with
          | none => (⟨500, .error "Failed to save booking"⟩, st)
          | some none => (⟨404, .error "Hotel not found"⟩, st)
          | some (some hotel) =>
            match hotel.roomTypes.find? (fun room => strictEq (.str room.type) roomType) with
            | none => (⟨404, .error "Room type not found"⟩, st)
            | some room =>
              let rate := bookingRate lib roomType numGuests room.rate
              match castBooking lib newId (bookingObject req.body user rate) with
              | none => (⟨500, .error "Failed to save booking"⟩, st)
              | some booking =>
                match insertBooking st.bookings booking with
                | none => (⟨500, .error "Failed to save booking"⟩, st)
                | some bookings =>
                  (⟨201, .bookingSaved "Booking saved successfully" (toJson (.num rate))⟩,
                    { st with bookings := bookings })

/-! ## `GET /api/bookings` -/

/-- Handler of `GET /api/bookings`, lines 269-285. -/
def getBookings (lib : Lib) (st : Store) (req : Request) : Response × Store :=
  match bearerToken req.authorization with
  | none => (⟨401, .error "No token provided"⟩, st)
  | some token =>
    match lib.verify token with
    | none => (⟨500, .error "Error fetching bookings"⟩, st)
    | some decoded =>
      let userId := decoded.id
      (⟨200, .bookings (st.bookings.filter (fun b => b.userId == userId))⟩, st)

/-! ## `POST /api/feedback` -/

/-- The document of `new Feedback(...)` followed by the validation of `save()`. -/
def castFeedback (lib : Lib) (name feedback ratings : JsVal) : Option FeedbackDoc := do
  let name ← requiredString lib name
  let feedback ← requiredString lib feedback
  let ratings ← requiredNumber lib ratings
  pure ⟨name, feedback, ratings⟩

/-- Handler of `POST /api/feedback`, lines 183-210. -/
def postFeedback (lib : Lib) (st : Store) (req : Request) : Response × Store :=
  match bearerToken req.authorization with
  | none => (⟨401, .error "No token provided"⟩, st)
  | some token =>
    match lib.verify token with
    | none => (⟨400, .error "Error adding feedback"⟩, st)
    | some decoded =>
      match findUserById lib st.users decoded.id with
      | none => (⟨400, .error "Error adding feedback"⟩, st)
      | some none => (⟨404, .error "User not found"⟩, st)
      | some (some user) =>
        let feedback := req.body.field "feedback"
        let ratings := req.body.field "ratings"
        match castFeedback lib (.str user.name) feedback ratings with
        | none => (⟨400, .error "Error adding feedback"⟩, st)
        | some savedFeedback =>
          (⟨201, .feedback savedFeedback⟩, { st with feedbacks := st.feedbacks ++ [savedFeedback] })

/-! ## `POST /api/auth/signup` and `POST /api/auth/login` -/

/-- The document of `new User(...)` followed by the validation of `save()`;
`newId` is the ObjectId generated for the document. -/
def castUser (lib : Lib) (newId : Id) (body : Obj) : Option UserDoc := do
  let username ← requiredString lib (body.field "username")
  let name ← requiredString lib (body.field "name")
  let email ← requiredString lib (body.field "email")
  let phone ← requiredString lib (body.field "phone")
  let address ← requiredString lib (body.field "address")
  let aadhar ← requiredString lib (body.field "aadhar")
  let password ← requiredString lib (body.field "password")
  pure ⟨newId, username, name, email, phone, address, aadhar, password⟩

/-- The `unique: true` indexes of `userSchema`: the insert of `u` is refused
when a stored user has its username or its email. -/
def uniqueViolation (users : List UserDoc) (u : UserDoc) : Bool :=
  users.any (fun v => v.username == u.username || v.email == u.email)

/-- Handler of `POST /api/auth/signup`, lines 104-119. -/
def postSignup (lib : Lib) (newId : Id) (st : Store) (req : Request) : Response × Store :=
  let email := req.body.field "email"
  match findUserByEmail lib st.users email with
  | none => (⟨500, .message "Error registering user"⟩, st)
  | some (some _) => (⟨400, .message "User already exists"⟩, st)
  | some none =>
    match castUser lib newId req.body with
    | none => (⟨500, .message "Error registering user"⟩, st)
    | some user =>
      if uniqueViolation st.users user then
        (⟨500, .message "Error registering user"⟩, st)
      else
        (⟨201, .message "User registered successfully"⟩, { st with users := st.users ++ [user] })

/-- Handler of `POST /api/auth/login`, lines 122-136. -/
def postLogin (lib : Lib) (st : Store) (req : Request) : Response × Store :=
  let email := req.body.field "email"
  let password := req.body.field "password"
  match findUserByEmail lib st.users email with
  | none => (⟨500, .message "Error logging in"⟩, st)
  | some none => (⟨400, .message "Invalid credentials"⟩, st)
  | some (some user) =>
    if !strictEq (.str user.password) password then
      (⟨400, .message "Invalid credentials"⟩, st)
    else
      let token := lib.sign ⟨user._id, user.email⟩ "1h"
      (⟨200, .login "Login successful" token user.name⟩, st)

/-! ## `POST /api/hotels/:id/reviews` -/

/-- Cast and validation of a pushed review subdocument. -/
def castReview (lib : Lib) (reviewer comment rating : JsVal) : Option Review := do
  let reviewer ← requiredString lib reviewer
  let comment ← requiredString lib comment
  let rating ← requiredNumber lib rating
  pure ⟨reviewer, comment, rating⟩

/-- The collection after `hotel.save()`: the stored document with the `_id` of
`hotel` is replaced. -/
def saveHotel (hotel : HotelDoc) : List HotelDoc → List HotelDoc
  | [] => []
  | h :: hs => if h._id == hotel._id then hotel :: hs else h :: saveHotel hotel hs

/-- Handler of `POST /api/hotels/:id/reviews`, lines 163-180. -/
def postReview (lib : Lib) (st : Store) (req : Request) : Response × Store :=
  match findHotelById lib st.hotels req.paramId with
  | none => (⟨500, .message "Error adding review"⟩, st)
  | some none => (⟨404, .message "Hotel not found"⟩, st)
  | some (some hotel) =>
    let reviewer := req.body.field "reviewer"
    let comment := req.body.field "comment"
    let rating := req.body.field "rating"
    match castReview lib reviewer comment rating with
    | none => (⟨500, .message "Error adding review"⟩, st)
    | some newReview =>
      let hotel := { hotel with reviews := hotel.reviews ++ [newReview] }
      (⟨201, .review "Review added" (toJson reviewer) (toJson comment) (toJson rating)⟩,
        { st with hotels := saveHotel hotel st.hotels })

/-! ## Auxiliary definitions -/

/-- The keys written by the server in the literal passed to `new Booking`. -/
def serverKeys : List String := ["userId", "userName", "userEmail", "userPhone", "rate"]

/-- The fields of the body of `POST /api/bookings`: the five that the handler
destructures, `hotelAddress`, and the optional `specialRequests`. -/
def bookingBodyKeys : List String :=
  ["hotelName", "hotelAddress", "roomType", "numGuests", "checkInDate", "checkOutDate",
    "specialRequests"]

/-- The conjunction of the five presence checks of line 229. -/
def requiredPresent (body : Obj) : Bool :=
  truthy (body.field "hotelName") && truthy (body.field "roomType") &&
    truthy (body.field "numGuests") && truthy (body.field "checkInDate") &&
    truthy (body.field "checkOutDate")

/-! ## Sample data -/

/-- The JSON text of the query operator object whose `$gt` is `''`. -/
def gtEmpty : String := "\x7b\"$gt\":\"\"\x7d"

/-- Whether a string is 24 lower-case hexadecimal digits. -/
def isHex24 (s : String) : Bool :=
  s.data.length == 24 && s.data.all (fun c => c.isDigit || (decide ('a' ≤ c) && decide (c ≤ 'f')))

/-- A library instance: one token verifies, for user `sampleUser`; numbers and
dates are parsed and printed from finite tables that cover the sample requests,
an ObjectId is a string of 24 hexadecimal digits, and the one query operator is
`gtEmpty`, which selects the non-empty strings. -/
def sampleLib : Lib where
  verify := fun t =>
    if t = "tok1" then some ⟨"64b0000000000000000000a1", "asha@example.com"⟩ else none
  sign := fun p e => "signed:" ++ p.id ++ ":" ++ p.email ++ ":" ++ e
  strToNumber := fun s =>
    if s = "0" then .fin 0 else if s = "2" then .fin 2 else if s = "4" then .fin 4 else .nan
  otherToNumber := fun _ => .nan
  numToString := fun x =>
    if x = .fin 0 then "0" else if x = .fin 2 then "2" else if x = .fin 4 then "4" else "NaN"
  parseDate := fun v =>
    match v with
    | .str "2024-05-01" => some 1714521600000
    | .str "2024-05-03" => some 1714694400000
    | _ => none
  castObjectId := fun v =>
    match v with
    | .str s => if isHex24 s then some s else none
    | _ => none
  queryString := fun j => if j = gtEmpty then some (fun s => decide (s ≠ "")) else none

def sampleUser : UserDoc :=
  ⟨"64b0000000000000000000a1", "asha", "Asha", "asha@example.com", "9000000001",
    "12 Lake Road", "1234-5678-9012", "pw1"⟩

def sampleHotel : HotelDoc :=
  ⟨"64b0000000000000000000b1", "Sea View", "1 Beach Road",
    [⟨"Standard", .fin 1000, true⟩, ⟨"Deluxe", .fin 900, true⟩, ⟨"Suite", .fin 2500, true⟩],
    .fin 4, [⟨"Ravi", "Clean rooms", .fin 4⟩], true, ["sea.jpg"]⟩

/-- The double nearest to one tenth, the value of the JSON number `0.1`. -/
def oneTenth : ℚ := 3602879701896397 / 36028797018963968

/-- A hotel whose Suite costs 0.1 and whose Dorm costs 1. -/
def budgetHotel : HotelDoc :=
  ⟨"64b0000000000000000000b2", "Budget Inn", "2 Station Road",
    [⟨"Suite", .fin oneTenth, true⟩, ⟨"Dorm", .fin 1, true⟩],
    .fin 3, [], true, []⟩

/-- A hotel with the name of `sampleHotel` and only a Standard room. -/
def twinHotel : HotelDoc :=
  ⟨"64b0000000000000000000b3", "Sea View", "9 Cliff Road",
    [⟨"Standard", .fin 800, true⟩], .fin 3, [], true, []⟩

def sampleStore : Store :=
  ⟨[sampleUser], [sampleHotel, budgetHotel], [], []⟩

/-- The store of `sampleStore` with `twinHotel` stored before `sampleHotel`. -/
def twinStore : Store :=
  ⟨[sampleUser], [twinHotel, sampleHotel], [], []⟩

/-- The ObjectId generated for a new document in the samples. -/
def sampleNewId : Id := "64b0000000000000000000c1"

/-- A body holding the five fields that the handler of `POST /api/bookings`
destructures, and no other. -/
def documentedBody : Obj :=
  [("hotelName", .str "Sea View"), ("roomType", .str "Deluxe"), ("numGuests", .num (.fin 4)),
    ("checkInDate", .str "2024-05-01"), ("checkOutDate", .str "2024-05-03")]

/-- The body of `documentedBody` with a `hotelAddress`. -/
def fullBody : Obj :=
  ("hotelAddress", .str "1 Beach Road") :: documentedBody

/-- A booking request of `sampleUser` that passes every step. -/
def validRequest : Request :=
  ⟨some "Bearer tok1", "", fullBody⟩

/-- The body of `fullBody` with a client-supplied owner and price. -/
def overridingBody : Obj :=
  ("userId", .str "64b0000000000000000000a2") :: ("rate", .num (.fin 1)) :: fullBody

/-- The body of `fullBody` asking for a Standard room for -3 guests. -/
def negativeGuestsBody : Obj :=
  ("roomType", .str "Standard") :: ("numGuests", .num (.fin (-3))) :: fullBody

/-- The body of `fullBody` with the guest count sent as the string `'0'`. -/
def stringZeroBody : Obj :=
  ("numGuests", .str "0") :: fullBody

/-- A body asking `budgetHotel` for a Suite for 15 guests. -/
def tenthBody : Obj :=
  [("hotelName", .str "Budget Inn"), ("hotelAddress", .str "2 Station Road"),
    ("roomType", .str "Suite"), ("numGuests", .num (.fin 15)),
    ("checkInDate", .str "2024-05-01"), ("checkOutDate", .str "2024-05-03")]

/-- A body asking `budgetHotel` for a Dorm for 11258999068426246 guests. -/
def largeBody : Obj :=
  [("hotelName", .str "Budget Inn"), ("hotelAddress", .str "2 Station Road"),
    ("roomType", .str "Dorm"), ("numGuests", .num (.fin 11258999068426246)),
    ("checkInDate", .str "2024-05-01"), ("checkOutDate", .str "2024-05-03")]

def sampleBooking (id : Id) (userId : String) (rate : ℚ) : BookingDoc :=
  ⟨id, "Sea View", "1 Beach Road", userId, "Guest", "guest@example.com", "9000000000",
    1714521600000, 1714694400000, .fin 2, "Standard", none, .fin rate⟩

/-- A store holding bookings of two users. -/
def bookedStore : Store :=
  ⟨[sampleUser], [sampleHotel], [],
    [sampleBooking "64b0000000000000000000d1" "64b0000000000000000000a1" 1000,
      sampleBooking "64b0000000000000000000d2" "64b0000000000000000000a2" 2000,
      sampleBooking "64b0000000000000000000d3" "64b0000000000000000000a1" 3000]⟩

/-- A signup body of a user not in `sampleStore`. -/
def signupBody : Obj :=
  [("username", .str "ravi"), ("name", .str "Ravi"), ("email", .str "ravi@example.com"),
    ("phone", .str "9000000002"), ("address", .str "3 Hill Street"),
    ("aadhar", .str "2345-6789-0123"), ("password", .str "pw2")]

/-- A review body. -/
def reviewBody : Obj :=
  [("reviewer", .str "Mina"), ("comment", .str "Quiet"), ("rating", .num (.fin 5))]

/-! ## Rounding -/

theorem log2Fuel_spec (fuel n : Nat) (hle : n ≤ fuel) (hn : n ≠ 0) :
    2 ^ log2Fuel fuel n ≤ n ∧ n < 2 ^ (log2Fuel fuel n + 1) := by
  induction fuel generalizing n with
  | zero => omega
  | succ fuel ih =>
    unfold log2Fuel
    by_cases h2 : 2 ≤ n
    · simp only [h2, if_true]
      have h := ih (n / 2) (by omega) (by omega)
      obtain ⟨h1, h3⟩ := h
      constructor
      · rw [pow_succ]; omega
      · rw [pow_succ]; omega
    · simp only [h2, if_false]
      constructor <;> simp <;> omega

theorem log2_spec (n : Nat) (hn : n ≠ 0) : 2 ^ log2 n ≤ n ∧ n < 2 ^ (log2 n + 1) :=
  log2Fuel_spec n n (le_refl n) hn

theorem abs_eq_natAbs_div_den (q : ℚ) : |q| = (q.num.natAbs : ℚ) / (q.den : ℚ) := by
  conv_lhs => rw [← Rat.num_div_den q]
  rw [abs_div, Nat.abs_cast]
  congr 1
  rw [Nat.cast_natAbs, Int.cast_abs]

theorem expo_spec (q : ℚ) (hq : q ≠ 0) :
    (2 : ℚ) ^ expo q ≤ |q| ∧ |q| < (2 : ℚ) ^ (expo q + 1) := by
  have ha : q.num.natAbs ≠ 0 := by
    simpa using hq
  have hb : q.den ≠ 0 := q.den_nz
  obtain ⟨a1, a2⟩ := log2_spec _ ha
  obtain ⟨b1, b2⟩ := log2_spec _ hb
  have a1' : (2 : ℚ) ^ log2 q.num.natAbs ≤ (q.num.natAbs : ℚ) := by exact_mod_cast a1
  have a2' : (q.num.natAbs : ℚ) < (2 : ℚ) ^ (log2 q.num.natAbs + 1) := by exact_mod_cast a2
  have b1' : (2 : ℚ) ^ log2 q.den ≤ (q.den : ℚ) := by exact_mod_cast b1
  have b2' : (q.den : ℚ) < (2 : ℚ) ^ (log2 q.den + 1) := by exact_mod_cast b2
  have hbpos : (0 : ℚ) < q.den := by exact_mod_cast q.den_pos
  have hpa : (0 : ℚ) < (2 : ℚ) ^ log2 q.num.natAbs := by positivity
  have hpb : (0 : ℚ) < (2 : ℚ) ^ log2 q.den := by positivity
  have habs := abs_eq_natAbs_div_den q
  have hlow : (2 : ℚ) ^ ((log2 q.num.natAbs : ℤ) - (log2 q.den : ℤ) - 1) < |q| := by
    rw [habs, zpow_sub₀ (by norm_num), zpow_sub₀ (by norm_num), zpow_natCast, zpow_natCast,
      zpow_one, div_div, lt_div_iff₀ hbpos, div_mul_eq_mul_div, div_lt_iff₀ (by positivity)]
    calc (2 : ℚ) ^ log2 q.num.natAbs * q.den
        < (2 : ℚ) ^ log2 q.num.natAbs * (2 : ℚ) ^ (log2 q.den + 1) := by
          exact mul_lt_mul_of_pos_left b2' hpa
      _ = (2 : ℚ) ^ log2 q.num.natAbs * ((2 : ℚ) ^ log2 q.den * 2) := by rw [pow_succ]
      _ ≤ (q.num.natAbs : ℚ) * ((2 : ℚ) ^ log2 q.den * 2) := by
          exact mul_le_mul_of_nonneg_right a1' (by positivity)
  have hup : |q| < (2 : ℚ) ^ ((log2 q.num.natAbs : ℤ) - (log2 q.den : ℤ) + 1) := by
    rw [habs, zpow_add_one₀ (by norm_num), zpow_sub₀ (by norm_num), zpow_natCast, zpow_natCast,
      div_lt_iff₀ hbpos, div_mul_eq_mul_div, div_mul_eq_mul_div, lt_div_iff₀ hpb]
    calc (q.num.natAbs : ℚ) * (2 : ℚ) ^ log2 q.den
        ≤ (q.num.natAbs : ℚ) * q.den := by
          exact mul_le_mul_of_nonneg_left b1' (by positivity)
      _ < (2 : ℚ) ^ (log2 q.num.natAbs + 1) * q.den := by
          exact mul_lt_mul_of_pos_right a2' hbpos
      _ = (2 : ℚ) ^ log2 q.num.natAbs * 2 * q.den := by rw [pow_succ]
  unfold expo
  by_cases hc : (2 : ℚ) ^ ((log2 q.num.natAbs : ℤ) - (log2 q.den : ℤ)) ≤ |q|
  · rw [if_pos hc]
    exact ⟨hc, hup⟩
  · rw [if_neg hc]
    refine ⟨le_of_lt hlow, ?_⟩
    rw [sub_add_cancel]
    exact lt_of_not_le hc

theorem rne_intCast (n : ℤ) : rne (n : ℚ) = n := by
  simp [rne]

theorem rne_sub_le (y : ℚ) : |(rne y : ℚ) - y| ≤ 1 / 2 := by
  have h1 := Int.floor_le y
  have h2 := Int.lt_floor_add_one y
  unfold rne
  rw [abs_le]
  split_ifs with a b c
  · constructor <;> linarith
  · push_cast
    constructor <;> linarith
  · constructor <;> linarith
  · push_cast
    constructor <;> linarith

theorem two_zpow_nonpos (t : ℤ) (ht : t ≤ 0) : ∃ k : ℕ, (2 : ℚ) ^ t = ((2 : ℚ) ^ k)⁻¹ := by
  obtain ⟨k, hk⟩ := Int.eq_ofNat_of_zero_le (show 0 ≤ -t by omega)
  refine ⟨k, ?_⟩
  have : t = -(k : ℤ) := by omega
  rw [this, zpow_neg, zpow_natCast]

/-- Integers below `2 ^ 53` in magnitude are doubles: rounding leaves them. -/
theorem roundDouble_intCast (m : ℤ) (hm : |(m : ℚ)| < 2 ^ 53) :
    roundDouble (m : ℚ) = .fin (m : ℚ) := by
  by_cases h0 : (m : ℚ) = 0
  · simp [roundDouble, h0]
  · obtain ⟨e1, e2⟩ := expo_spec (m : ℚ) h0
    have hlt : expo (m : ℚ) < 53 := by
      have h : (2 : ℚ) ^ expo (m : ℚ) < (2 : ℚ) ^ (53 : ℤ) := by
        refine lt_of_le_of_lt e1 ?_
        rw [zpow_ofNat]
        exact hm
      exact (zpow_lt_zpow_iff_right₀ (by norm_num)).1 h
    have hge : 0 ≤ expo (m : ℚ) := by
      have hm1 : (1 : ℚ) ≤ |(m : ℚ)| := by
        have hmz : m ≠ 0 := by exact_mod_cast h0
        have : (1 : ℤ) ≤ |m| := Int.one_le_abs hmz
        rw [← Int.cast_abs]
        exact_mod_cast this
      have h : (2 : ℚ) ^ (0 : ℤ) < (2 : ℚ) ^ (expo (m : ℚ) + 1) := by
        rw [zpow_zero]
        exact lt_of_le_of_lt hm1 e2
      have := (zpow_lt_zpow_iff_right₀ (by norm_num)).1 h
      omega
    have hmax : max (expo (m : ℚ)) (-1022) = expo (m : ℚ) := max_eq_left (by omega)
    obtain ⟨k, hk⟩ := two_zpow_nonpos (expo (m : ℚ) - 52) (by omega)
    have hkpos : (0 : ℚ) < (2 : ℚ) ^ k := by positivity
    have hr : ((rne ((m : ℚ) / 2 ^ (expo (m : ℚ) - 52)) : ℤ) : ℚ) * 2 ^ (expo (m : ℚ) - 52)
        = (m : ℚ) := by
      rw [hk, div_inv_eq_mul]
      have : (m : ℚ) * 2 ^ k = ((m * 2 ^ k : ℤ) : ℚ) := by push_cast; ring
      rw [this, rne_intCast]
      push_cast
      field_simp
    unfold roundDouble
    simp only [h0, if_false, hmax, hr]
    have hbig : ¬ ((2 : ℚ) ^ 1024 ≤ |(m : ℚ)|) := by
      have : (2 : ℚ) ^ 53 < 2 ^ 1024 := by norm_num
      linarith
    simp [hbig]

/-- Below `2 ^ 51` in magnitude rounding moves a number by at most `1 / 8`. -/
theorem roundDouble_near (q : ℚ) (hq : |q| < 2 ^ 51) :
    ∃ r, roundDouble q = .fin r ∧ |r - q| ≤ 1 / 8 := by
  by_cases h0 : q = 0
  · exact ⟨0, by simp [roundDouble, h0], by simp [h0]⟩
  · obtain ⟨e1, -⟩ := expo_spec q h0
    have hlt : expo q < 51 := by
      have h : (2 : ℚ) ^ expo q < (2 : ℚ) ^ (51 : ℤ) := by
        refine lt_of_le_of_lt e1 ?_
        rw [zpow_ofNat]
        exact hq
      exact (zpow_lt_zpow_iff_right₀ (by norm_num)).1 h
    have hmax : max (expo q) (-1022) - 52 ≤ -2 := by
      have : max (expo q) (-1022) ≤ 50 := max_le (by omega) (by norm_num)
      omega
    have hQpos : (0 : ℚ) < (2 : ℚ) ^ (max (expo q) (-1022) - 52) := by positivity
    have hQle : (2 : ℚ) ^ (max (expo q) (-1022) - 52) ≤ 1 / 4 := by
      have h := zpow_le_zpow_right₀ (show (1 : ℚ) ≤ 2 by norm_num) hmax
      have h4 : (2 : ℚ) ^ (-2 : ℤ) = 1 / 4 := by norm_num
      rw [h4] at h
      exact h
    have hrn := rne_sub_le (q / 2 ^ (max (expo q) (-1022) - 52))
    have hdist : |((rne (q / 2 ^ (max (expo q) (-1022) - 52)) : ℤ) : ℚ)
        * 2 ^ (max (expo q) (-1022) - 52) - q| ≤ 1 / 8 := by
      have heq : ((rne (q / 2 ^ (max (expo q) (-1022) - 52)) : ℤ) : ℚ)
          * 2 ^ (max (expo q) (-1022) - 52) - q
          = (((rne (q / 2 ^ (max (expo q) (-1022) - 52)) : ℤ) : ℚ)
            - q / 2 ^ (max (expo q) (-1022) - 52)) * 2 ^ (max (expo q) (-1022) - 52) := by
        field_simp
      rw [heq, abs_mul, abs_of_pos hQpos]
      calc |((rne (q / 2 ^ (max (expo q) (-1022) - 52)) : ℤ) : ℚ)
            - q / 2 ^ (max (expo q) (-1022) - 52)| * 2 ^ (max (expo q) (-1022) - 52)
          ≤ 1 / 2 * (1 / 4) := mul_le_mul hrn hQle (le_of_lt hQpos) (by norm_num)
        _ = 1 / 8 := by norm_num
    refine ⟨((rne (q / 2 ^ (max (expo q) (-1022) - 52)) : ℤ) : ℚ)
      * 2 ^ (max (expo q) (-1022) - 52), ?_, hdist⟩
    have hbig : ¬ ((2 : ℚ) ^ 1024 ≤ |((rne (q / 2 ^ (max (expo q) (-1022) - 52)) : ℤ) : ℚ)
        * 2 ^ (max (expo q) (-1022) - 52)|) := by
      have h1 : |((rne (q / 2 ^ (max (expo q) (-1022) - 52)) : ℤ) : ℚ)
          * 2 ^ (max (expo q) (-1022) - 52)| ≤ |q| + 1 / 8 := by
        have := abs_sub_abs_le_abs_sub (((rne (q / 2 ^ (max (expo q) (-1022) - 52)) : ℤ) : ℚ)
          * 2 ^ (max (expo q) (-1022) - 52)) q
        linarith
      have h2 : (2 : ℚ) ^ 51 + 1 / 8 < 2 ^ 1024 := by norm_num
      linarith
    unfold roundDouble
    simp only [h0, if_false]
    rw [if_neg hbig]

/-- The ceiling of a rounded quotient of integers is the exact ceiling, for a
divisor from 1 to 7 and a dividend below `2 ^ 51` in magnitude. -/
theorem jsCeil_jsDiv_int (n d : ℤ) (hd0 : 0 < d) (hd7 : d ≤ 7) (hn : |(n : ℚ)| < 2 ^ 51) :
    jsCeil (jsDiv (.fin (n : ℚ)) (.fin (d : ℚ))) = .fin ((⌈(n : ℚ) / d⌉ : ℤ) : ℚ) := by
  have hdq : (0 : ℚ) < (d : ℚ) := by exact_mod_cast hd0
  have hdne : (d : ℚ) ≠ 0 := ne_of_gt hdq
  have hdiv : jsDiv (.fin (n : ℚ)) (.fin (d : ℚ)) = roundDouble ((n : ℚ) / d) := by
    simp [jsDiv, hdne]
  rw [hdiv]
  by_cases hdvd : d ∣ n
  · obtain ⟨j, rfl⟩ := hdvd
    have hj : ((d * j : ℤ) : ℚ) / d = (j : ℚ) := by
      push_cast
      field_simp
    rw [hj]
    have hjle : |(j : ℚ)| < 2 ^ 53 := by
      have h1 : |(j : ℚ)| ≤ |((d * j : ℤ) : ℚ)| := by
        push_cast
        rw [abs_mul]
        have hd1 : (1 : ℚ) ≤ |(d : ℚ)| := by
          rw [abs_of_pos hdq]
          exact_mod_cast hd0
        calc |(j : ℚ)| = 1 * |(j : ℚ)| := by ring
          _ ≤ |(d : ℚ)| * |(j : ℚ)| := mul_le_mul_of_nonneg_right hd1 (abs_nonneg _)
      have h2 : (2 : ℚ) ^ 51 < 2 ^ 53 := by norm_num
      linarith
    rw [roundDouble_intCast j hjle]
    simp [jsCeil]
  · have hq : |(n : ℚ) / d| < 2 ^ 51 := by
      rw [abs_div, abs_of_pos hdq]
      have hd1 : (1 : ℚ) ≤ (d : ℚ) := by exact_mod_cast hd0
      calc |(n : ℚ)| / d ≤ |(n : ℚ)| / 1 := by
            exact div_le_div_of_nonneg_left (abs_nonneg _) one_pos hd1
        _ = |(n : ℚ)| := by ring
        _ < 2 ^ 51 := hn
    obtain ⟨r, hr, hnear⟩ := roundDouble_near ((n : ℚ) / d) hq
    rw [hr]
    simp only [jsCeil]
    congr 2
    rw [Int.ceil_eq_iff]
    rw [abs_le] at hnear
    have hc1 : (n : ℚ) / d ≤ (⌈(n : ℚ) / d⌉ : ℤ) := Int.le_ceil _
    have hc2 : ((⌈(n : ℚ) / d⌉ : ℤ) : ℚ) - 1 < (n : ℚ) / d := by
      have := Int.ceil_lt_add_one ((n : ℚ) / d)
      linarith
    have hd7q : (d : ℚ) ≤ 7 := by exact_mod_cast hd7
    have hup : (n : ℤ) + 1 ≤ d * ⌈(n : ℚ) / d⌉ := by
      have hle : (n : ℚ) ≤ d * (⌈(n : ℚ) / d⌉ : ℤ) := by
        rw [div_le_iff₀ hdq] at hc1
        linarith
      have hle' : n ≤ d * ⌈(n : ℚ) / d⌉ := by exact_mod_cast hle
      rcases lt_or_eq_of_le hle' with h | h
      · omega
      · exact absurd ⟨_, h⟩ hdvd
    have hlow : d * (⌈(n : ℚ) / d⌉ - 1) + 1 ≤ n := by
      have hlt : (d : ℚ) * ((⌈(n : ℚ) / d⌉ : ℤ) - 1) < n := by
        rw [lt_div_iff₀ hdq] at hc2
        linarith
      have hlt' : d * (⌈(n : ℚ) / d⌉ - 1) < n := by exact_mod_cast hlt
      omega
    have hupq : (n : ℚ) / d + 1 / d ≤ (⌈(n : ℚ) / d⌉ : ℤ) := by
      have h : ((n : ℤ) : ℚ) + 1 ≤ (d : ℚ) * (⌈(n : ℚ) / d⌉ : ℤ) := by exact_mod_cast hup
      rw [← add_div, div_le_iff₀ hdq]
      linarith
    have hlowq : ((⌈(n : ℚ) / d⌉ : ℤ) : ℚ) - 1 + 1 / d ≤ (n : ℚ) / d := by
      have h : (d : ℚ) * ((⌈(n : ℚ) / d⌉ : ℤ) - 1) + 1 ≤ (n : ℚ) := by exact_mod_cast hlow
      rw [le_div_iff₀ hdq, add_mul, div_mul_cancel₀ _ hdne]
      linarith
    have h7 : (1 : ℚ) / 7 ≤ 1 / d := one_div_le_one_div_of_le hdq hd7q
    constructor <;> linarith [hnear.1, hnear.2]

/-- The product of two integers is exact when it is below `2 ^ 53` in magnitude. -/
theorem jsMul_int (k r : ℤ) (h : |(k : ℚ) * r| < 2 ^ 53) :
    jsMul (.fin (k : ℚ)) (.fin (r : ℚ)) = .fin ((k : ℚ) * r) := by
  have hc : (k : ℚ) * r = ((k * r : ℤ) : ℚ) := by push_cast; ring
  simp only [jsMul]
  rw [hc] at h ⊢
  exact roundDouble_intCast _ h

theorem roundDouble_ne_nan (q : ℚ) : roundDouble q ≠ .nan := by
  unfold roundDouble
  by_cases h0 : q = 0
  · simp [h0]
  · simp only [h0, if_false]
    split_ifs <;> simp

/-- Below `2 ^ 1023` in magnitude rounding gives a finite double. -/
theorem roundDouble_fin (q : ℚ) (hq : |q| < 2 ^ 1023) : ∃ r, roundDouble q = .fin r := by
  by_cases h0 : q = 0
  · exact ⟨0, by simp [roundDouble, h0]⟩
  · obtain ⟨e1, e2⟩ := expo_spec q h0
    have hQpos : (0 : ℚ) < (2 : ℚ) ^ (max (expo q) (-1022) - 52) := by positivity
    have hQle : (2 : ℚ) ^ (max (expo q) (-1022) - 52) ≤ |q| + 1 := by
      rcases le_total (expo q) (-1022) with h | h
      · rw [max_eq_right h]
        have h1 : (2 : ℚ) ^ ((-1022 : ℤ) - 52) ≤ (2 : ℚ) ^ (0 : ℤ) :=
          zpow_le_zpow_right₀ (by norm_num) (by norm_num)
        rw [zpow_zero] at h1
        linarith [abs_nonneg q]
      · rw [max_eq_left h]
        have h1 : (2 : ℚ) ^ (expo q - 52) ≤ (2 : ℚ) ^ expo q :=
          zpow_le_zpow_right₀ (by norm_num) (by omega)
        linarith
    have hrn := rne_sub_le (q / 2 ^ (max (expo q) (-1022) - 52))
    have hdist : |((rne (q / 2 ^ (max (expo q) (-1022) - 52)) : ℤ) : ℚ)
        * 2 ^ (max (expo q) (-1022) - 52) - q| ≤ 1 / 2 * (|q| + 1) := by
      have heq : ((rne (q / 2 ^ (max (expo q) (-1022) - 52)) : ℤ) : ℚ)
          * 2 ^ (max (expo q) (-1022) - 52) - q
          = (((rne (q / 2 ^ (max (expo q) (-1022) - 52)) : ℤ) : ℚ)
            - q / 2 ^ (max (expo q) (-1022) - 52)) * 2 ^ (max (expo q) (-1022) - 52) := by
        field_simp
      rw [heq, abs_mul, abs_of_pos hQpos]
      exact mul_le_mul hrn hQle (le_of_lt hQpos) (by norm_num)
    have hbig : ¬ ((2 : ℚ) ^ 1024 ≤ |((rne (q / 2 ^ (max (expo q) (-1022) - 52)) : ℤ) : ℚ)
        * 2 ^ (max (expo q) (-1022) - 52)|) := by
      have h1 := abs_sub_abs_le_abs_sub (((rne (q / 2 ^ (max (expo q) (-1022) - 52)) : ℤ) : ℚ)
          * 2 ^ (max (expo q) (-1022) - 52)) q
      have h2 : (3 : ℚ) / 2 * 2 ^ 1023 + 1 / 2 < 2 ^ 1024 := by norm_num
      linarith
    refine ⟨((rne (q / 2 ^ (max (expo q) (-1022) - 52)) : ℤ) : ℚ)
      * 2 ^ (max (expo q) (-1022) - 52), ?_⟩
    unfold roundDouble
    simp only [h0, if_false]
    rw [if_neg hbig]

theorem strictEq_str (s : String) (v : JsVal) : strictEq (.str s) v = true ↔ v = .str s := by
  simp [strictEq, eq_comm]

theorem divisor_cases (v : JsVal) : divisor v = 2 ∨ divisor v = 3 ∨ divisor v = 5 := by
  unfold divisor
  split_ifs <;> simp

theorem divisor_values :
    divisor (.str "Standard") = 2 ∧ divisor (.str "Deluxe") = 3 ∧
    (∀ v : JsVal, v ≠ .str "Standard" → v ≠ .str "Deluxe" → divisor v = 5) := by
  refine ⟨by simp [divisor, strictEq], by simp [divisor, strictEq], ?_⟩
  intro v h1 h2
  have e1 : strictEq (.str "Standard") v = false := by
    rw [Bool.eq_false_iff]
    exact fun h => h1 ((strictEq_str _ _).1 h)
  have e2 : strictEq (.str "Deluxe") v = false := by
    rw [Bool.eq_false_iff]
    exact fun h => h2 ((strictEq_str _ _).1 h)
  simp [divisor, e1, e2]

/-- The rate of an integer guest count and an integer room rate is the exact
`ceil(n / divisor) * r` when `|n| < 2 ^ 51` and the product is below `2 ^ 53`
in magnitude. -/
theorem bookingRate_exact (lib : Lib) (roomType numGuests : JsVal) (n r : ℤ)
    (hn : toNumber lib numGuests = .fin (n : ℚ)) (hlt : |(n : ℚ)| < 2 ^ 51)
    (hprod : |((⌈(n : ℚ) / divisor roomType⌉ : ℤ) : ℚ) * r| < 2 ^ 53) :
    bookingRate lib roomType numGuests (.fin (r : ℚ))
      = .fin (((⌈(n : ℚ) / divisor roomType⌉ : ℤ) : ℚ) * r) := by
  unfold bookingRate
  rw [hn]
  rcases divisor_cases roomType with hd | hd | hd
  · rw [hd] at hprod ⊢
    have h := jsCeil_jsDiv_int n 2 (by norm_num) (by norm_num) hlt
    simp only [Int.cast_ofNat] at h
    rw [h]
    exact jsMul_int _ r hprod
  · rw [hd] at hprod ⊢
    have h := jsCeil_jsDiv_int n 3 (by norm_num) (by norm_num) hlt
    simp only [Int.cast_ofNat] at h
    rw [h]
    exact jsMul_int _ r hprod
  · rw [hd] at hprod ⊢
    have h := jsCeil_jsDiv_int n 5 (by norm_num) (by norm_num) hlt
    simp only [Int.cast_ofNat] at h
    rw [h]
    exact jsMul_int _ r hprod

/-- The rate of a finite guest count and a finite room rate is not `NaN`. -/
theorem bookingRate_ne_nan (lib : Lib) (roomType numGuests : JsVal) (n r : ℚ)
    (hn : toNumber lib numGuests = .fin n) (hlt : |n| < 2 ^ 1024) :
    bookingRate lib roomType numGuests (.fin r) ≠ .nan := by
  unfold bookingRate
  rw [hn]
  have hd : (2 : ℚ) ≤ divisor roomType := by
    rcases divisor_cases roomType with h | h | h <;> rw [h] <;> norm_num
  have hdpos : (0 : ℚ) < divisor roomType := by linarith
  have hq : |n / divisor roomType| < 2 ^ 1023 := by
    rw [abs_div, abs_of_pos hdpos, div_lt_iff₀ hdpos]
    have h2 : (2 : ℚ) ^ 1024 = 2 ^ 1023 * 2 := by norm_num
    have h3 : (2 : ℚ) ^ 1023 * 2 ≤ 2 ^ 1023 * divisor roomType :=
      mul_le_mul_of_nonneg_left hd (by positivity)
    linarith
  obtain ⟨x, hx⟩ := roundDouble_fin _ hq
  have hdiv : jsDiv (.fin n) (.fin (divisor roomType)) = .fin x := by
    simp only [jsDiv, ne_of_gt hdpos, if_false]
    exact hx
  rw [hdiv]
  simp only [jsCeil, jsMul]
  exact roundDouble_ne_nan _

/-! ## Object literals and casts -/

theorem field_set_other (o : Obj) (k j : String) (v : JsVal) (h : k ≠ j) :
    (o.set k v).field j = o.field j := by
  have hkj : (k == j) = false := by simpa using h
  simp [Obj.set, Obj.field, List.find?, hkj]

theorem bookingObject_userId (body : Obj) (user : UserDoc) (rate : Dbl) :
    (bookingObject body user rate).field "userId" = .str user._id := by
  simp [bookingObject, Obj.set, Obj.field, List.find?]

theorem bookingObject_userName (body : Obj) (user : UserDoc) (rate : Dbl) :
    (bookingObject body user rate).field "userName" = .str user.name := by
  simp [bookingObject, Obj.set, Obj.field, List.find?]

theorem bookingObject_userEmail (body : Obj) (user : UserDoc) (rate : Dbl) :
    (bookingObject body user rate).field "userEmail" = .str user.email := by
  simp [bookingObject, Obj.set, Obj.field, List.find?]

theorem bookingObject_userPhone (body : Obj) (user : UserDoc) (rate : Dbl) :
    (bookingObject body user rate).field "userPhone" = .str user.phone := by
  simp [bookingObject, Obj.set, Obj.field, List.find?]

theorem bookingObject_rate (body : Obj) (user : UserDoc) (rate : Dbl) :
    (bookingObject body user rate).field "rate" = .num rate := by
  simp [bookingObject, Obj.set, Obj.field, List.find?]

theorem bookingObject_other (body : Obj) (user : UserDoc) (rate : Dbl) (k : String)
    (hk : k ∉ serverKeys) : (bookingObject body user rate).field k = body.field k := by
  simp only [serverKeys, List.mem_cons, List.mem_singleton, List.not_mem_nil, or_false,
    not_or] at hk
  obtain ⟨h1, h2, h3, h4, h5⟩ := hk
  unfold bookingObject
  rw [field_set_other _ _ _ _ (Ne.symm h5), field_set_other _ _ _ _ (Ne.symm h4),
    field_set_other _ _ _ _ (Ne.symm h3), field_set_other _ _ _ _ (Ne.symm h2),
    field_set_other _ _ _ _ (Ne.symm h1)]

theorem requiredString_str (lib : Lib) (s t : String)
    (h : requiredString lib (.str s) = some t) : t = s ∧ s ≠ "" := by
  unfold requiredString castString at h
  by_cases hs : s = ""
  · simp [hs] at h
  · simp [hs] at h
    exact ⟨h.symm, hs⟩

theorem requiredString_of_ne (lib : Lib) (s : String) (h : s ≠ "") :
    requiredString lib (.str s) = some s := by
  simp [requiredString, castString, h]

theorem requiredNumber_num (lib : Lib) (x y : Dbl) :
    requiredNumber lib (.num x) = some y ↔ x ≠ .nan ∧ y = x := by
  unfold requiredNumber castNumber
  by_cases hx : x = .nan
  · simp [hx]
  · simp [hx, eq_comm]

/-- What a successful `castBooking` returns. -/
theorem castBooking_eq_some (lib : Lib) (newId : Id) (o : Obj) (b : BookingDoc)
    (h : castBooking lib newId o = some b) :
    requiredString lib (o.field "hotelName") = some b.hotelName ∧
    requiredString lib (o.field "hotelAddress") = some b.hotelAddress ∧
    requiredString lib (o.field "userId") = some b.userId ∧
    requiredString lib (o.field "userName") = some b.userName ∧
    requiredString lib (o.field "userEmail") = some b.userEmail ∧
    requiredString lib (o.field "userPhone") = some b.userPhone ∧
    requiredDate lib (o.field "checkInDate") = some b.checkInDate ∧
    requiredDate lib (o.field "checkOutDate") = some b.checkOutDate ∧
    requiredNumber lib (o.field "numGuests") = some b.numGuests ∧
    requiredString lib (o.field "roomType") = some b.roomType ∧
    requiredNumber lib (o.field "rate") = some b.rate ∧
    castString lib (o.field "specialRequests") = some b.specialRequests := by
  simp only [castBooking, Option.bind_eq_bind, Option.bind_eq_some] at h
  obtain ⟨a0, -, av, -, h⟩ := h
  simp only [castBookingPaths, Option.bind_eq_bind, Option.pure_def, Option.bind_eq_some] at h
  obtain ⟨a1, h1, a2, h2, a3, h3, a4, h4, a5, h5, a6, h6, a7, h7, a8, h8, a9, h9,
    a10, h10, a11, h11, a12, h12, hb⟩ := h
  simp only [Option.some.injEq] at hb
  subst hb
  exact ⟨h1, h2, h3, h4, h5, h6, h7, h8, h9, h10, h12, h11⟩

theorem insertBooking_eq_some (bookings bs : List BookingDoc) (booking : BookingDoc)
    (h : insertBooking bookings booking = some bs) :
    bs = bookings ++ [booking] ∧ ∀ b ∈ bookings, b._id ≠ booking._id := by
  unfold insertBooking at h
  by_cases hany : bookings.any (fun b => b._id == booking._id) = true
  · simp [hany] at h
  · simp only [hany, Bool.false_eq_true, if_false, Option.some.injEq] at h
    refine ⟨h.symm, ?_⟩
    simpa using hany

theorem insertBooking_of_fresh (bookings : List BookingDoc) (booking : BookingDoc)
    (h : ∀ b ∈ bookings, b._id ≠ booking._id) :
    insertBooking bookings booking = some (bookings ++ [booking]) := by
  have hany : bookings.any (fun b => b._id == booking._id) = false := by
    simpa using h
  simp [insertBooking, hany]

/-! ## `POST /api/bookings`: outcomes -/

/-- The outcomes of `POST /api/bookings`: either every step succeeded and one
booking was appended, or the call answered an error and wrote nothing. -/
theorem postBookings_cases (lib : Lib) (newId : Id) (st : Store) (req : Request) :
    (∃ token decoded user hotel room booking,
      bearerToken req.authorization = some token ∧
      lib.verify token = some decoded ∧
      findUserById lib st.users decoded.id = some (some user) ∧
      requiredPresent req.body = true ∧
      findHotelByName lib st.hotels (req.body.field "hotelName") = some (some hotel) ∧
      hotel.roomTypes.find? (fun room => strictEq (.str room.type) (req.body.field "roomType"))
        = some room ∧
      castBooking lib newId (bookingObject req.body user
        (bookingRate lib (req.body.field "roomType") (req.body.field "numGuests") room.rate))
        = some booking ∧
      (∀ b ∈ st.bookings, b._id ≠ booking._id) ∧
      postBookings lib newId st req =
        (⟨201, .bookingSaved "Booking saved successfully"
          (toJson (.num (bookingRate lib (req.body.field "roomType")
            (req.body.field "numGuests") room.rate)))⟩,
          { st with bookings := st.bookings ++ [booking] })) ∨
    ((postBookings lib newId st req).1.status ∈ [401, 500, 404, 400] ∧
      (postBookings lib newId st req).2 = st) := by
  unfold postBookings
  cases hb : bearerToken req.authorization with
  | none => right; simp [hb]
  | some token =>
  cases hv : lib.verify token with
  | none => right; simp [hb, hv]
  | some decoded =>
  cases hu : findUserById lib st.users decoded.id with
  | none => right; simp [hb, hv, hu]
  | some found =>
  cases found with
  | none => right; simp [hb, hv, hu]
  | some user =>
  cases p1 : truthy (req.body.field "hotelName") with
  | false => right; simp [hb, hv, hu, p1]
  | true =>
  cases p2 : truthy (req.body.field "roomType") with
  | false => right; simp [hb, hv, hu, p1, p2]
  | true =>
  cases p3 : truthy (req.body.field "numGuests") with
  | false => right; simp [hb, hv, hu, p1, p2, p3]
  | true =>
  cases p4 : truthy (req.body.field "checkInDate") with
  | false => right; simp [hb, hv, hu, p1, p2, p3, p4]
  | true =>
  cases p5 : truthy (req.body.field "checkOutDate") with
  | false => right; simp [hb, hv, hu, p1, p2, p3, p4, p5]
  | true =>
  cases hh : findHotelByName lib st.hotels (req.body.field "hotelName") with
  | none => right; simp [hb, hv, hu, hh, p1, p2, p3, p4, p5]
  | some foundHotel =>
  cases foundHotel with
  | none => right; simp [hb, hv, hu, hh, p1, p2, p3, p4, p5]
  | some hotel =>
  cases hr : hotel.roomTypes.find?
      (fun room => strictEq (.str room.type) (req.body.field "roomType")) with
  | none => right; simp [hb, hv, hu, hh, hr, p1, p2, p3, p4, p5]
  | some room =>
  cases hc : castBooking lib newId (bookingObject req.body user
      (bookingRate lib (req.body.field "roomType") (req.body.field "numGuests") room.rate)) with
  | none => right; simp [hb, hv, hu, hh, hr, hc, p1, p2, p3, p4, p5]
  | some booking =>
  cases hi : insertBooking st.bookings booking with
  | none => right; simp [hb, hv, hu, hh, hr, hc, hi, p1, p2, p3, p4, p5]
  | some bookings =>
    left
    obtain ⟨hbs, hfresh⟩ := insertBooking_eq_some _ _ _ hi
    subst hbs
    refine ⟨token, decoded, user, hotel, room, booking, ?_, ?_, ?_, ?_, ?_, ?_, ?_, hfresh, ?_⟩ <;>
      first
        | rfl
        | assumption
        | simp [requiredPresent, hv, hu, hh, hr, hc, hi, p1, p2, p3, p4, p5]

/-- Every step that a call answered 201 went through, and its outcome. -/
theorem postBookings_created (lib : Lib) (newId : Id) (st : Store) (req : Request)
    (h : (postBookings lib newId st req).1.status = 201) :
    ∃ token decoded user hotel room booking,
      bearerToken req.authorization = some token ∧
      lib.verify token = some decoded ∧
      findUserById lib st.users decoded.id = some (some user) ∧
      requiredPresent req.body = true ∧
      findHotelByName lib st.hotels (req.body.field "hotelName") = some (some hotel) ∧
      hotel.roomTypes.find? (fun room => strictEq (.str room.type) (req.body.field "roomType"))
        = some room ∧
      castBooking lib newId (bookingObject req.body user
        (bookingRate lib (req.body.field "roomType") (req.body.field "numGuests") room.rate))
        = some booking ∧
      (∀ b ∈ st.bookings, b._id ≠ booking._id) ∧
      postBookings lib newId st req =
        (⟨201, .bookingSaved "Booking saved successfully"
          (toJson (.num (bookingRate lib (req.body.field "roomType")
            (req.body.field "numGuests") room.rate)))⟩,
          { st with bookings := st.bookings ++ [booking] }) := by
  rcases postBookings_cases lib newId st req with hc | ⟨hs, -⟩
  · exact hc
  · rw [h] at hs
    exact absurd hs (by decide)

/-- The call is answered 201 when every step of the handler succeeds. -/
theorem postBookings_of_steps (lib : Lib) (newId : Id) (st : Store) (req : Request)
    (token : String) (decoded : Payload) (user : UserDoc) (hotel : HotelDoc) (room : RoomType)
    (booking : BookingDoc)
    (hb : bearerToken req.authorization = some token)
    (hv : lib.verify token = some decoded)
    (hu : findUserById lib st.users decoded.id = some (some user))
    (hp : requiredPresent req.body = true)
    (hh : findHotelByName lib st.hotels (req.body.field "hotelName") = some (some hotel))
    (hr : hotel.roomTypes.find?
      (fun room => strictEq (.str room.type) (req.body.field "roomType")) = some room)
    (hc : castBooking lib newId (bookingObject req.body user
      (bookingRate lib (req.body.field "roomType") (req.body.field "numGuests") room.rate))
      = some booking)
    (hfresh : ∀ b ∈ st.bookings, b._id ≠ booking._id) :
    postBookings lib newId st req =
      (⟨201, .bookingSaved "Booking saved successfully"
        (toJson (.num (bookingRate lib (req.body.field "roomType")
          (req.body.field "numGuests") room.rate)))⟩,
        { st with bookings := st.bookings ++ [booking] }) := by
  simp only [requiredPresent, Bool.and_eq_true] at hp
  obtain ⟨⟨⟨⟨p1, p2⟩, p3⟩, p4⟩, p5⟩ := hp
  have hi := insertBooking_of_fresh st.bookings booking hfresh
  unfold postBookings
  simp [hb, hv, hu, hh, hr, hc, hi, p1, p2, p3, p4, p5]

/-! ## `POST /api/bookings`: the rate -/

/-- C1 (counterexample): two calls answered 201 whose stored rate is not
`ceil(numGuests / divisor) * room.rate`.  A Suite of rate 0.1 for 15 guests is
stored with rate 0.30000000000000004, not three times the room rate; a Dorm of
rate 1 for 11258999068426246 guests is stored with rate 2251799813685249, not
2251799813685250. -/
theorem rate_not_exact :
    ((postBookings sampleLib sampleNewId sampleStore ⟨some "Bearer tok1", "", tenthBody⟩).1
        = ⟨201, .bookingSaved "Booking saved successfully"
            (.num (.fin (1351079888211149 / 4503599627370496)))⟩ ∧
      (postBookings sampleLib sampleNewId sampleStore
          ⟨some "Bearer tok1", "", tenthBody⟩).2.bookings.map (fun b => b.rate)
        = [.fin (1351079888211149 / 4503599627370496)] ∧
      (1351079888211149 / 4503599627370496 : ℚ) ≠ ((⌈(15 : ℚ) / 5⌉ : ℤ) : ℚ) * oneTenth) ∧
    ((postBookings sampleLib sampleNewId sampleStore ⟨some "Bearer tok1", "", largeBody⟩).1
        = ⟨201, .bookingSaved "Booking saved successfully" (.num (.fin 2251799813685249))⟩ ∧
      (postBookings sampleLib sampleNewId sampleStore
          ⟨some "Bearer tok1", "", largeBody⟩).2.bookings.map (fun b => b.rate)
        = [.fin 2251799813685249] ∧
      (2251799813685249 : ℚ) ≠ ((⌈(11258999068426246 : ℚ) / 5⌉ : ℤ) : ℚ) * 1) := by
  decide!

/-- C1 (amended): a call of `POST /api/bookings` answered 201 stores one new
booking whose rate is the double `Math.ceil(numGuests / divisor) * room.rate`,
the quotient and the product each rounded to the nearest double, and returns
it as JSON, where `room` is the first entry of the hotel's `roomTypes` whose
type is the requested `roomType`, and the divisor is 2 for `'Standard'`, 3 for
`'Deluxe'` and 5 for every other value.  When `numGuests` is an integer `n`
with `|n| < 2 ^ 51` and the room rate an integer `r` with
`|ceil(n / divisor) * r| < 2 ^ 53`, the stored and returned rate is exactly
`ceil(n / divisor) * r`; `'Deluxe'`, 900 and 4 guests give 1800. -/
theorem booking_rate_formula (lib : Lib) (newId : Id) (st : Store) (req : Request)
    (h : (postBookings lib newId st req).1.status = 201) :
    (∃ hotel room booking,
      findHotelByName lib st.hotels (req.body.field "hotelName") = some (some hotel) ∧
      hotel.roomTypes.find? (fun room => strictEq (.str room.type) (req.body.field "roomType"))
        = some room ∧
      req.body.field "roomType" = .str room.type ∧
      booking.rate = jsMul (jsCeil (jsDiv (toNumber lib (req.body.field "numGuests"))
        (.fin (divisor (req.body.field "roomType"))))) room.rate ∧
      (postBookings lib newId st req).2 = { st with bookings := st.bookings ++ [booking] } ∧
      (postBookings lib newId st req).1.body =
        .bookingSaved "Booking saved successfully" (toJson (.num booking.rate)) ∧
      (∀ n r : ℤ, toNumber lib (req.body.field "numGuests") = .fin (n : ℚ) →
        room.rate = .fin (r : ℚ) → |(n : ℚ)| < 2 ^ 51 →
        |((⌈(n : ℚ) / divisor (req.body.field "roomType")⌉ : ℤ) : ℚ) * r| < 2 ^ 53 →
        booking.rate = .fin (((⌈(n : ℚ) / divisor (req.body.field "roomType")⌉ : ℤ) : ℚ) * r) ∧
        (postBookings lib newId st req).1.body =
          .bookingSaved "Booking saved successfully"
            (.num (.fin (((⌈(n : ℚ) / divisor (req.body.field "roomType")⌉ : ℤ) : ℚ) * r))))) ∧
    divisor (.str "Standard") = 2 ∧ divisor (.str "Deluxe") = 3 ∧
    (∀ v : JsVal, v ≠ .str "Standard" → v ≠ .str "Deluxe" → divisor v = 5) ∧
    bookingRate lib (.str "Deluxe") (.num (.fin 4)) (.fin 900) = .fin 1800 := by
  refine ⟨?_, divisor_values.1, divisor_values.2.1, divisor_values.2.2, ?_⟩
  · obtain ⟨token, decoded, user, hotel, room, booking, -, -, -, -, hh, hr, hc, -, hres⟩ :=
      postBookings_created lib newId st req h
    have hcast := castBooking_eq_some lib newId _ booking hc
    have hrate := hcast.2.2.2.2.2.2.2.2.2.2.1
    rw [bookingObject_rate, requiredNumber_num] at hrate
    have hty : req.body.field "roomType" = .str room.type := by
      have hp := List.find?_some hr
      exact (strictEq_str _ _).1 hp
    have hbody : (postBookings lib newId st req).1.body =
        .bookingSaved "Booking saved successfully" (toJson (.num booking.rate)) := by
      rw [hres, hrate.2]
    refine ⟨hotel, room, booking, hh, hr, hty, hrate.2, by rw [hres], hbody, ?_⟩
    intro n r hn hr2 hlt hprod
    have hex := bookingRate_exact lib (req.body.field "roomType") (req.body.field "numGuests")
      n r hn hlt hprod
    have hbr : booking.rate
        = .fin (((⌈(n : ℚ) / divisor (req.body.field "roomType")⌉ : ℤ) : ℚ) * r) := by
      rw [hrate.2, hr2, hex]
    refine ⟨hbr, ?_⟩
    rw [hbody, hbr]
    rfl
  · have hex := bookingRate_exact lib (.str "Deluxe") (.num (.fin 4)) 4 900 (by simp [toNumber])
      (by norm_num) (by
        rw [divisor_values.2.1]
        have hc : ⌈((4 : ℤ) : ℚ) / 3⌉ = 2 := by
          rw [Int.ceil_eq_iff]
          norm_num
        rw [hc]
        norm_num)
    have hc : ⌈((4 : ℤ) : ℚ) / 3⌉ = 2 := by
      rw [Int.ceil_eq_iff]
      norm_num
    rw [divisor_values.2.1, hc] at hex
    simp only [Int.cast_ofNat] at hex
    rw [hex]
    norm_num

/-- Witness of C1 (amended): the rate of `validRequest`, a Deluxe room of rate
900 for 4 guests. -/
theorem booking_rate_formula_witness :
    (postBookings sampleLib sampleNewId sampleStore validRequest).1.status = 201 ∧
    (∃ hotel room booking,
      findHotelByName sampleLib sampleStore.hotels (validRequest.body.field "hotelName")
        = some (some hotel) ∧
      hotel.roomTypes.find?
        (fun room => strictEq (.str room.type) (validRequest.body.field "roomType"))
        = some room ∧
      validRequest.body.field "roomType" = .str room.type ∧
      booking.rate = jsMul (jsCeil (jsDiv (toNumber sampleLib
        (validRequest.body.field "numGuests"))
        (.fin (divisor (validRequest.body.field "roomType"))))) room.rate ∧
      (postBookings sampleLib sampleNewId sampleStore validRequest).2
        = { sampleStore with bookings := sampleStore.bookings ++ [booking] } ∧
      (postBookings sampleLib sampleNewId sampleStore validRequest).1.body =
        .bookingSaved "Booking saved successfully" (toJson (.num booking.rate)) ∧
      (∀ n r : ℤ, toNumber sampleLib (validRequest.body.field "numGuests") = .fin (n : ℚ) →
        room.rate = .fin (r : ℚ) → |(n : ℚ)| < 2 ^ 51 →
        |((⌈(n : ℚ) / divisor (validRequest.body.field "roomType")⌉ : ℤ) : ℚ) * r| < 2 ^ 53 →
        booking.rate
          = .fin (((⌈(n : ℚ) / divisor (validRequest.body.field "roomType")⌉ : ℤ) : ℚ) * r) ∧
        (postBookings sampleLib sampleNewId sampleStore validRequest).1.body =
          .bookingSaved "Booking saved successfully"
            (.num (.fin
              (((⌈(n : ℚ) / divisor (validRequest.body.field "roomType")⌉ : ℤ) : ℚ) * r))))) ∧
    bookingRate sampleLib (.str "Deluxe") (.num (.fin 4)) (.fin 900) = .fin 1800 ∧
    (postBookings sampleLib sampleNewId sampleStore validRequest).1.body =
      .bookingSaved "Booking saved successfully" (.num (.fin 1800)) :=
  ⟨by decide!,
    (booking_rate_formula sampleLib sampleNewId sampleStore validRequest (by decide!)).1,
    (booking_rate_formula sampleLib sampleNewId sampleStore validRequest (by decide!)).2.2.2.2,
    by decide!⟩

/-! ## `POST /api/bookings`: writes -/

/-- The five fields whose presence line 229 checks. -/
theorem requiredPresent_eq_false (body : Obj) (k : String)
    (hk : k ∈ ["hotelName", "roomType", "numGuests", "checkInDate", "checkOutDate"])
    (hf : truthy (body.field k) = false) : requiredPresent body = false := by
  simp only [List.mem_cons, List.mem_singleton, List.not_mem_nil, or_false] at hk
  rcases hk with rfl | rfl | rfl | rfl | rfl <;> simp [requiredPresent, hf]

theorem postBookings_missing (lib : Lib) (newId : Id) (st : Store) (req : Request)
    (token : String) (decoded : Payload) (user : UserDoc)
    (hb : bearerToken req.authorization = some token)
    (hv : lib.verify token = some decoded)
    (hu : findUserById lib st.users decoded.id = some (some user))
    (hp : requiredPresent req.body = false) :
    postBookings lib newId st req = (⟨400, .error "Missing required fields"⟩, st) := by
  unfold postBookings
  simp only [hb, hv, hu]
  have hcond : (!truthy (req.body.field "hotelName") || !truthy (req.body.field "roomType")
      || !truthy (req.body.field "numGuests") || !truthy (req.body.field "checkInDate")
      || !truthy (req.body.field "checkOutDate")) = true := by
    unfold requiredPresent at hp
    revert hp
    cases truthy (req.body.field "hotelName") <;> cases truthy (req.body.field "roomType") <;>
      cases truthy (req.body.field "numGuests") <;>
      cases truthy (req.body.field "checkInDate") <;>
      cases truthy (req.body.field "checkOutDate") <;> simp
  simp [hcond]

/-- C3: `POST /api/bookings` writes to the booking store exactly once when it
answers 201 and not at all otherwise.  Each failure path leaves the store as it
was: no token (401), a token that fails verification, an unknown user (404), a
missing required field (400), a hotel name that is not found (404), a room type
that is not found (404).  In general either the status is 201 and the store
after the call is the store before it plus one new booking, or the status is an
error and the store is unchanged. -/
theorem postBookings_writes_once (lib : Lib) (newId : Id) (st : Store) (req : Request) :
    (bearerToken req.authorization = none →
      postBookings lib newId st req = (⟨401, .error "No token provided"⟩, st)) ∧
    (∀ token, bearerToken req.authorization = some token → lib.verify token = none →
      (postBookings lib newId st req).1.status ≠ 201 ∧ (postBookings lib newId st req).2 = st) ∧
    (∀ token decoded, bearerToken req.authorization = some token →
      lib.verify token = some decoded → findUserById lib st.users decoded.id = some none →
      postBookings lib newId st req = (⟨404, .error "User not found"⟩, st)) ∧
    (∀ token decoded user k, bearerToken req.authorization = some token →
      lib.verify token = some decoded →
      findUserById lib st.users decoded.id = some (some user) →
      k ∈ ["hotelName", "roomType", "numGuests", "checkInDate", "checkOutDate"] →
      truthy (req.body.field k) = false →
      postBookings lib newId st req = (⟨400, .error "Missing required fields"⟩, st)) ∧
    (∀ token decoded user, bearerToken req.authorization = some token →
      lib.verify token = some decoded →
      findUserById lib st.users decoded.id = some (some user) →
      requiredPresent req.body = true →
      findHotelByName lib st.hotels (req.body.field "hotelName") = some none →
      postBookings lib newId st req = (⟨404, .error "Hotel not found"⟩, st)) ∧
    (∀ token decoded user hotel, bearerToken req.authorization = some token →
      lib.verify token = some decoded →
      findUserById lib st.users decoded.id = some (some user) →
      requiredPresent req.body = true →
      findHotelByName lib st.hotels (req.body.field "hotelName") = some (some hotel) →
      hotel.roomTypes.find? (fun room => strictEq (.str room.type) (req.body.field "roomType"))
        = none →
      postBookings lib newId st req = (⟨404, .error "Room type not found"⟩, st)) ∧
    (((postBookings lib newId st req).1.status = 201 ∧
        ∃ booking, (postBookings lib newId st req).2
          = { st with bookings := st.bookings ++ [booking] })
      ∨ ((postBookings lib newId st req).1.status ≠ 201 ∧
        (postBookings lib newId st req).1.status ∈ [401, 500, 404, 400] ∧
        (postBookings lib newId st req).2 = st)) := by
  refine ⟨?_, ?_, ?_, ?_, ?_, ?_, ?_⟩
  · intro hb
    simp [postBookings, hb]
  · intro token hb hv
    simp [postBookings, hb, hv]
  · intro token decoded hb hv hu
    simp [postBookings, hb, hv, hu]
  · intro token decoded user k hb hv hu hk hf
    exact postBookings_missing lib newId st req token decoded user hb hv hu
      (requiredPresent_eq_false req.body k hk hf)
  · intro token decoded user hb hv hu hp hh
    simp only [requiredPresent, Bool.and_eq_true] at hp
    obtain ⟨⟨⟨⟨p1, p2⟩, p3⟩, p4⟩, p5⟩ := hp
    simp [postBookings, hb, hv, hu, hh, p1, p2, p3, p4, p5]
  · intro token decoded user hotel hb hv hu hp hh hr
    simp only [requiredPresent, Bool.and_eq_true] at hp
    obtain ⟨⟨⟨⟨p1, p2⟩, p3⟩, p4⟩, p5⟩ := hp
    simp [postBookings, hb, hv, hu, hh, hr, p1, p2, p3, p4, p5]
  · by_cases h : (postBookings lib newId st req).1.status = 201
    · left
      obtain ⟨_, _, _, _, _, booking, -, -, -, -, -, -, -, -, hres⟩ :=
        postBookings_created lib newId st req h
      exact ⟨h, booking, by rw [hres]⟩
    · right
      rcases postBookings_cases lib newId st req with
        ⟨_, _, _, _, _, _, -, -, -, -, -, -, -, -, hres⟩ | hf
      · rw [hres] at h
        exact absurd rfl h
      · exact ⟨h, hf.1, hf.2⟩

/-- Witness of C3: one request on each failure path of `sampleStore`. -/
theorem postBookings_writes_once_witness :
    postBookings sampleLib sampleNewId sampleStore ⟨none, "", fullBody⟩
      = (⟨401, .error "No token provided"⟩, sampleStore) ∧
    (postBookings sampleLib sampleNewId sampleStore ⟨some "Bearer bad", "", fullBody⟩).2
      = sampleStore ∧
    postBookings sampleLib sampleNewId { sampleStore with users := [] } validRequest
      = (⟨404, .error "User not found"⟩, { sampleStore with users := [] }) ∧
    postBookings sampleLib sampleNewId sampleStore
        ⟨some "Bearer tok1", "", ("checkInDate", .str "") :: fullBody⟩
      = (⟨400, .error "Missing required fields"⟩, sampleStore) ∧
    postBookings sampleLib sampleNewId sampleStore
        ⟨some "Bearer tok1", "", ("hotelName", .str "Nowhere") :: fullBody⟩
      = (⟨404, .error "Hotel not found"⟩, sampleStore) ∧
    postBookings sampleLib sampleNewId sampleStore
        ⟨some "Bearer tok1", "", ("roomType", .str "Penthouse") :: fullBody⟩
      = (⟨404, .error "Room type not found"⟩, sampleStore) :=
  ⟨(postBookings_writes_once sampleLib sampleNewId sampleStore ⟨none, "", fullBody⟩).1
      (by decide),
    ((postBookings_writes_once sampleLib sampleNewId sampleStore
      ⟨some "Bearer bad", "", fullBody⟩).2.1 "bad" (by decide) (by decide)).2,
    (postBookings_writes_once sampleLib sampleNewId { sampleStore with users := [] }
      validRequest).2.2.1 "tok1" ⟨"64b0000000000000000000a1", "asha@example.com"⟩
      (by decide) (by decide) (by decide),
    (postBookings_writes_once sampleLib sampleNewId sampleStore
      ⟨some "Bearer tok1", "", ("checkInDate", .str "") :: fullBody⟩).2.2.2.1 "tok1"
      ⟨"64b0000000000000000000a1", "asha@example.com"⟩ sampleUser "checkInDate"
      (by decide) (by decide) (by decide) (by decide) (by decide),
    (postBookings_writes_once sampleLib sampleNewId sampleStore
      ⟨some "Bearer tok1", "", ("hotelName", .str "Nowhere") :: fullBody⟩).2.2.2.2.1 "tok1"
      ⟨"64b0000000000000000000a1", "asha@example.com"⟩ sampleUser
      (by decide) (by decide) (by decide) (by decide) (by decide),
    (postBookings_writes_once sampleLib sampleNewId sampleStore
      ⟨some "Bearer tok1", "", ("roomType", .str "Penthouse") :: fullBody⟩).2.2.2.2.2.1 "tok1"
      ⟨"64b0000000000000000000a1", "asha@example.com"⟩ sampleUser sampleHotel
      (by decide) (by decide) (by decide) (by decide) (by decide) (by decide)⟩

/-! ## `POST /api/bookings`: owner and price -/

theorem castBooking_bookingObject_congr (lib : Lib) (newId : Id) (b1 b2 : Obj) (user : UserDoc)
    (rate : Dbl) (hagree : ∀ k, k ∉ serverKeys → b1.field k = b2.field k) :
    castBooking lib newId (bookingObject b1 user rate)
      = castBooking lib newId (bookingObject b2 user rate) := by
  have ho : ∀ k, k ∉ serverKeys →
      (bookingObject b1 user rate).field k = (bookingObject b2 user rate).field k := by
    intro k hk
    rw [bookingObject_other _ _ _ _ hk, bookingObject_other _ _ _ _ hk, hagree k hk]
  unfold castBooking bookingId castBookingPaths
  rw [ho "_id" (by decide), ho "__v" (by decide), ho "hotelName" (by decide),
    ho "hotelAddress" (by decide), ho "checkInDate" (by decide),
    ho "checkOutDate" (by decide), ho "numGuests" (by decide), ho "roomType" (by decide),
    ho "specialRequests" (by decide)]
  simp only [bookingObject_userId, bookingObject_userName, bookingObject_userEmail,
    bookingObject_userPhone, bookingObject_rate]

/-- C10: the request body cannot override a booking's owner or price.  Two
calls of `POST /api/bookings` on the same store with the same token, whose bodies
agree on every key other than `userId`, `userName`, `userEmail`, `userPhone` and
`rate`, have the same response and leave the same store; and in every call
answered 201 the persisted booking's `userId`, `userName`, `userEmail`,
`userPhone` and `rate` are the resolved user's id, name, email and phone and the
computed rate. -/
theorem body_cannot_override_owner_or_rate (lib : Lib) (newId : Id) (st : Store)
    (auth : Option String) (pid : String) (b1 b2 : Obj)
    (hagree : ∀ k, k ∉ serverKeys → b1.field k = b2.field k) :
    postBookings lib newId st ⟨auth, pid, b1⟩ = postBookings lib newId st ⟨auth, pid, b2⟩ ∧
    ((postBookings lib newId st ⟨auth, pid, b1⟩).1.status = 201 →
      ∃ token decoded user hotel room booking,
        bearerToken auth = some token ∧ lib.verify token = some decoded ∧
        findUserById lib st.users decoded.id = some (some user) ∧
        findHotelByName lib st.hotels (b1.field "hotelName") = some (some hotel) ∧
        hotel.roomTypes.find? (fun room => strictEq (.str room.type) (b1.field "roomType"))
          = some room ∧
        (postBookings lib newId st ⟨auth, pid, b1⟩).2.bookings = st.bookings ++ [booking] ∧
        (postBookings lib newId st ⟨auth, pid, b2⟩).2.bookings = st.bookings ++ [booking] ∧
        booking.userId = user._id ∧ booking.userName = user.name ∧
        booking.userEmail = user.email ∧ booking.userPhone = user.phone ∧
        booking.rate = bookingRate lib (b1.field "roomType") (b1.field "numGuests")
          room.rate) := by
  have heq : postBookings lib newId st ⟨auth, pid, b1⟩
      = postBookings lib newId st ⟨auth, pid, b2⟩ := by
    unfold postBookings
    simp only [hagree "hotelName" (by decide), hagree "roomType" (by decide),
      hagree "numGuests" (by decide), hagree "checkInDate" (by decide),
      hagree "checkOutDate" (by decide)]
    simp only [castBooking_bookingObject_congr lib newId b1 b2 _ _ hagree]
  refine ⟨heq, ?_⟩
  intro h
  obtain ⟨token, decoded, user, hotel, room, booking, hb, hv, hu, -, hh, hr, hc, -, hres⟩ :=
    postBookings_created lib newId st _ h
  have hcast := castBooking_eq_some lib newId _ booking hc
  obtain ⟨-, -, c3, c4, c5, c6, -, -, -, -, c11, -⟩ := hcast
  rw [bookingObject_userId] at c3
  rw [bookingObject_userName] at c4
  rw [bookingObject_userEmail] at c5
  rw [bookingObject_userPhone] at c6
  rw [bookingObject_rate, requiredNumber_num] at c11
  refine ⟨token, decoded, user, hotel, room, booking, hb, hv, hu, hh, hr, ?_, ?_,
    (requiredString_str _ _ _ c3).1, (requiredString_str _ _ _ c4).1,
    (requiredString_str _ _ _ c5).1, (requiredString_str _ _ _ c6).1, c11.2⟩
  · rw [hres]
  · rw [← heq, hres]

theorem sample_bodies_agree :
    ∀ k, k ∉ serverKeys → fullBody.field k = overridingBody.field k := by
  intro k hk
  simp only [serverKeys, List.mem_cons, List.mem_singleton, List.not_mem_nil, or_false,
    not_or] at hk
  obtain ⟨h1, -, -, -, h5⟩ := hk
  have e1 : overridingBody.field k
      = Obj.field (("rate", JsVal.num (.fin 1)) :: fullBody) k :=
    field_set_other _ "userId" k _ (Ne.symm h1)
  have e2 : Obj.field (("rate", JsVal.num (.fin 1)) :: fullBody) k = fullBody.field k :=
    field_set_other _ "rate" k _ (Ne.symm h5)
  rw [e1, e2]

/-- Witness of C10: `overridingBody` supplies a `userId` and a `rate` of its own. -/
theorem body_cannot_override_owner_or_rate_witness :
    (∀ k, k ∉ serverKeys → fullBody.field k = overridingBody.field k) ∧
    postBookings sampleLib sampleNewId sampleStore ⟨some "Bearer tok1", "", fullBody⟩ =
      postBookings sampleLib sampleNewId sampleStore ⟨some "Bearer tok1", "", overridingBody⟩ :=
  ⟨sample_bodies_agree,
    (body_cannot_override_owner_or_rate sampleLib sampleNewId sampleStore (some "Bearer tok1")
      "" fullBody overridingBody sample_bodies_agree).1⟩

/-! ## `POST /api/bookings`: success -/

theorem findHotelByName_str (lib : Lib) (hotels : List HotelDoc) (hn : String) :
    findHotelByName lib hotels (.str hn) = some (hotels.find? (fun h => h.name == hn)) := by
  simp [findHotelByName, stringFilter, castString]

theorem find_room_str (rooms : List RoomType) (rt : String) :
    rooms.find? (fun room => strictEq (.str room.type) (.str rt))
      = rooms.find? (fun room => room.type == rt) := by
  congr 1
  funext room
  simp [strictEq, beq_eq_decide]

/-- C4 (counterexample): the token verifies, the user is stored, the body holds
exactly the five documented fields, all non-empty, and a hotel of that name
with a room of that type is stored.  On `sampleStore` the call is answered 500
and no booking is persisted, the path `hotelAddress` of `bookingSchema` being
required and absent; on `twinStore`, where another hotel of that name is stored
first, the call is answered 404. -/
theorem documented_body_fails :
    documentedBody.map Prod.fst =
      ["hotelName", "roomType", "numGuests", "checkInDate", "checkOutDate"] ∧
    bearerToken (some "Bearer tok1") = some "tok1" ∧
    sampleLib.verify "tok1" = some ⟨"64b0000000000000000000a1", "asha@example.com"⟩ ∧
    findUserById sampleLib sampleStore.users "64b0000000000000000000a1"
      = some (some sampleUser) ∧
    requiredPresent documentedBody = true ∧
    sampleHotel ∈ sampleStore.hotels ∧ sampleHotel ∈ twinStore.hotels ∧
    JsVal.str sampleHotel.name = documentedBody.field "hotelName" ∧
    (⟨"Deluxe", .fin 900, true⟩ : RoomType) ∈ sampleHotel.roomTypes ∧
    JsVal.str "Deluxe" = documentedBody.field "roomType" ∧
    postBookings sampleLib sampleNewId sampleStore ⟨some "Bearer tok1", "", documentedBody⟩ =
      (⟨500, .error "Failed to save booking"⟩, sampleStore) ∧
    postBookings sampleLib sampleNewId twinStore ⟨some "Bearer tok1", "", documentedBody⟩ =
      (⟨404, .error "Room type not found"⟩, twinStore) := by
  decide!

/-- C4 (amended): a request to `POST /api/bookings` with a verifying token of a
stored user (whose id, name, email and phone are not empty) and a body holding
exactly the fields `hotelName`, `hotelAddress`, `roomType`, `numGuests`,
`checkInDate`, `checkOutDate` and, optionally, `specialRequests`, where
`hotelName`, `hotelAddress` and `roomType` are non-empty strings, `numGuests`
is a finite non-zero number, the two dates are non-empty strings that cast to
dates and `specialRequests` casts to a string, where the first stored hotel of
that name has a room of that type, of a finite rate, and the generated `_id` is
not the `_id` of a stored booking, is answered 201 with the message and the
rate, and persists one booking that combines the request fields, the user's
id, name, email and phone and the computed rate. -/
theorem booking_succeeds (lib : Lib) (newId : Id) (st : Store) (req : Request)
    (token : String) (decoded : Payload) (user : UserDoc) (hotel : HotelDoc) (room : RoomType)
    (hn ha rt ci co : String) (n r : ℚ) (d1 d2 : Date) (sr : Option String)
    (hb : bearerToken req.authorization = some token)
    (hv : lib.verify token = some decoded)
    (hu : findUserById lib st.users decoded.id = some (some user))
    (huser : user._id ≠ "" ∧ user.name ≠ "" ∧ user.email ≠ "" ∧ user.phone ≠ "")
    (hkeys : ∀ k, k ∉ bookingBodyKeys → req.body.field k = .undefined)
    (hname : req.body.field "hotelName" = .str hn) (hn0 : hn ≠ "")
    (haddr : req.body.field "hotelAddress" = .str ha) (ha0 : ha ≠ "")
    (htype : req.body.field "roomType" = .str rt) (rt0 : rt ≠ "")
    (hguests : req.body.field "numGuests" = .num (.fin n)) (n0 : n ≠ 0)
    (nfin : |n| < 2 ^ 1024)
    (hin : req.body.field "checkInDate" = .str ci) (ci0 : ci ≠ "")
    (hout : req.body.field "checkOutDate" = .str co) (co0 : co ≠ "")
    (hd1 : lib.parseDate (.str ci) = some d1) (hd2 : lib.parseDate (.str co) = some d2)
    (hsr : castString lib (req.body.field "specialRequests") = some sr)
    (hh : st.hotels.find? (fun h => h.name == hn) = some hotel)
    (hr : hotel.roomTypes.find? (fun room => room.type == rt) = some room)
    (hrate : room.rate = .fin r)
    (hfresh : ∀ b ∈ st.bookings, b._id ≠ newId) :
    postBookings lib newId st req =
      (⟨201, .bookingSaved "Booking saved successfully"
        (toJson (.num (jsMul (jsCeil (jsDiv (.fin n) (.fin (divisor (.str rt))))) (.fin r))))⟩,
        { st with bookings := st.bookings ++
          [⟨newId, hn, ha, user._id, user.name, user.email, user.phone, d1, d2, .fin n, rt, sr,
            jsMul (jsCeil (jsDiv (.fin n) (.fin (divisor (.str rt))))) (.fin r)⟩] }) := by
  have hbr : bookingRate lib (req.body.field "roomType") (req.body.field "numGuests") room.rate
      = jsMul (jsCeil (jsDiv (.fin n) (.fin (divisor (.str rt))))) (.fin r) := by
    simp [bookingRate, hguests, htype, hrate, toNumber]
  have hnan : jsMul (jsCeil (jsDiv (.fin n) (.fin (divisor (.str rt))))) (.fin r) ≠ .nan := by
    have h := bookingRate_ne_nan lib (.str rt) (.num (.fin n)) n r (by simp [toNumber]) nfin
    simpa [bookingRate, toNumber] using h
  have hp : requiredPresent req.body = true := by
    simp [requiredPresent, hname, htype, hguests, hin, hout, truthy, hn0, rt0, n0, ci0, co0]
  have hh2 : findHotelByName lib st.hotels (req.body.field "hotelName") = some (some hotel) := by
    rw [hname, findHotelByName_str, hh]
  have hr2 : hotel.roomTypes.find?
      (fun room => strictEq (.str room.type) (req.body.field "roomType")) = some room := by
    rw [htype, find_room_str, hr]
  have hc : castBooking lib newId (bookingObject req.body user
      (bookingRate lib (req.body.field "roomType") (req.body.field "numGuests") room.rate))
      = some ⟨newId, hn, ha, user._id, user.name, user.email, user.phone, d1, d2, .fin n, rt, sr,
            jsMul (jsCeil (jsDiv (.fin n) (.fin (divisor (.str rt))))) (.fin r)⟩ := by
    unfold castBooking bookingId castBookingPaths
    rw [bookingObject_other _ _ _ "_id" (by decide),
      bookingObject_other _ _ _ "__v" (by decide),
      bookingObject_other _ _ _ "hotelName" (by decide),
      bookingObject_other _ _ _ "hotelAddress" (by decide),
      bookingObject_other _ _ _ "checkInDate" (by decide),
      bookingObject_other _ _ _ "checkOutDate" (by decide),
      bookingObject_other _ _ _ "numGuests" (by decide),
      bookingObject_other _ _ _ "roomType" (by decide),
      bookingObject_other _ _ _ "specialRequests" (by decide),
      bookingObject_userId, bookingObject_userName, bookingObject_userEmail,
      bookingObject_userPhone, bookingObject_rate, hbr, hkeys "_id" (by decide),
      hkeys "__v" (by decide), hname, haddr, htype, hguests, hin,
      hout, hsr, requiredString_of_ne lib hn hn0, requiredString_of_ne lib ha ha0,
      requiredString_of_ne lib rt rt0, requiredString_of_ne lib _ huser.1,
      requiredString_of_ne lib _ huser.2.1, requiredString_of_ne lib _ huser.2.2.1,
      requiredString_of_ne lib _ huser.2.2.2]
    simp [requiredDate, requiredNumber, castNumber, ci0, co0, hd1, hd2, hnan]
  have hres := postBookings_of_steps lib newId st req token decoded user hotel room _ hb hv hu hp
    hh2 hr2 hc hfresh
  rw [hres, hbr]

theorem fullBody_keys : ∀ k, k ∉ bookingBodyKeys → fullBody.field k = .undefined := by
  intro k hk
  simp only [bookingBodyKeys, List.mem_cons, List.mem_singleton, List.not_mem_nil, or_false,
    not_or] at hk
  obtain ⟨h1, h2, h3, h4, h5, h6, -⟩ := hk
  have e : ∀ (j : String) (v : JsVal) (o : Obj), j ≠ k →
      Obj.field ((j, v) :: o) k = Obj.field o k :=
    fun j v o hne => field_set_other o j k v hne
  unfold fullBody documentedBody
  rw [e _ _ _ (Ne.symm h2), e _ _ _ (Ne.symm h1), e _ _ _ (Ne.symm h3), e _ _ _ (Ne.symm h4),
    e _ _ _ (Ne.symm h5), e _ _ _ (Ne.symm h6)]
  rfl

/-- Witness of C4 (amended): `validRequest` is answered 201. -/
theorem booking_succeeds_witness :
    postBookings sampleLib sampleNewId sampleStore validRequest =
      (⟨201, .bookingSaved "Booking saved successfully"
        (toJson (.num (jsMul (jsCeil (jsDiv (.fin 4) (.fin (divisor (.str "Deluxe")))))
          (.fin 900))))⟩,
        { sampleStore with bookings := sampleStore.bookings ++
          [⟨sampleNewId, "Sea View", "1 Beach Road", sampleUser._id, sampleUser.name,
            sampleUser.email, sampleUser.phone, 1714521600000, 1714694400000, .fin 4,
            "Deluxe", none,
            jsMul (jsCeil (jsDiv (.fin 4) (.fin (divisor (.str "Deluxe"))))) (.fin 900)⟩] }) :=
  booking_succeeds sampleLib sampleNewId sampleStore validRequest "tok1"
    ⟨"64b0000000000000000000a1", "asha@example.com"⟩
    sampleUser sampleHotel ⟨"Deluxe", .fin 900, true⟩ "Sea View" "1 Beach Road" "Deluxe"
    "2024-05-01" "2024-05-03" 4 900 1714521600000 1714694400000 none
    (by decide) (by decide) (by decide) (by decide) fullBody_keys (by decide) (by decide)
    (by decide) (by decide) (by decide) (by decide) (by decide) (by decide) (by norm_num)
    (by decide) (by decide) (by decide) (by decide) (by decide) (by decide) (by decide)
    (by decide) (by decide) (by decide) (by decide)

/-! ## `POST /api/bookings`: guest counts -/

/-- C5 (counterexample): two requests with a non-positive guest count that are
answered 201.  For -3 guests in a Standard room of rate 1000 a booking of rate
-1000 is persisted; for a guest count sent as the string `'0'` a booking of 0
guests and rate 0 is persisted. -/
theorem nonpositive_guests_accepted :
    (negativeGuestsBody.field "numGuests" = .num (.fin (-3)) ∧
      postBookings sampleLib sampleNewId sampleStore
          ⟨some "Bearer tok1", "", negativeGuestsBody⟩ =
        (⟨201, .bookingSaved "Booking saved successfully" (.num (.fin (-1000)))⟩,
          { sampleStore with bookings := [⟨sampleNewId, "Sea View", "1 Beach Road",
            "64b0000000000000000000a1", "Asha", "asha@example.com", "9000000001",
            1714521600000, 1714694400000, .fin (-3), "Standard", none, .fin (-1000)⟩] })) ∧
    (stringZeroBody.field "numGuests" = .str "0" ∧ sampleLib.strToNumber "0" = .fin 0 ∧
      postBookings sampleLib sampleNewId sampleStore ⟨some "Bearer tok1", "", stringZeroBody⟩ =
        (⟨201, .bookingSaved "Booking saved successfully" (.num (.fin 0))⟩,
          { sampleStore with bookings := [⟨sampleNewId, "Sea View", "1 Beach Road",
            "64b0000000000000000000a1", "Asha", "asha@example.com", "9000000001",
            1714521600000, 1714694400000, .fin 0, "Deluxe", none, .fin 0⟩] })) := by
  decide!

/-- C5 (amended): `POST /api/bookings` rejects a `numGuests` that is falsy in
JavaScript (absent, `null`, `false`, the number 0, `NaN` or the empty string):
such a request is answered with an error status (401, 500, 404 or 400) and
stores no booking; past the identity steps the answer is 400 `Missing required
fields`. -/
theorem falsy_guests_rejected (lib : Lib) (newId : Id) (st : Store) (req : Request)
    (h0 : truthy (req.body.field "numGuests") = false) :
    (postBookings lib newId st req).1.status ∈ [401, 500, 404, 400] ∧
    (postBookings lib newId st req).2 = st ∧
    (∀ token decoded user, bearerToken req.authorization = some token →
      lib.verify token = some decoded →
      findUserById lib st.users decoded.id = some (some user) →
      postBookings lib newId st req = (⟨400, .error "Missing required fields"⟩, st)) := by
  have hp : requiredPresent req.body = false :=
    requiredPresent_eq_false req.body "numGuests" (by decide) h0
  refine ⟨?_, ?_, ?_⟩
  · rcases postBookings_cases lib newId st req with ⟨_, _, _, _, _, _, -, -, -, hp2, -⟩ | hf
    · rw [hp] at hp2
      exact absurd hp2 (by decide)
    · exact hf.1
  · rcases postBookings_cases lib newId st req with ⟨_, _, _, _, _, _, -, -, -, hp2, -⟩ | hf
    · rw [hp] at hp2
      exact absurd hp2 (by decide)
    · exact hf.2
  · intro token decoded user hb hv hu
    exact postBookings_missing lib newId st req token decoded user hb hv hu hp

/-- Witness of C5 (amended): `fullBody` with the number 0 as the guest count. -/
theorem falsy_guests_rejected_witness :
    truthy (Obj.field (("numGuests", .num (.fin 0)) :: fullBody) "numGuests") = false ∧
    postBookings sampleLib sampleNewId sampleStore
        ⟨some "Bearer tok1", "", ("numGuests", .num (.fin 0)) :: fullBody⟩
      = (⟨400, .error "Missing required fields"⟩, sampleStore) :=
  ⟨by decide,
    (falsy_guests_rejected sampleLib sampleNewId sampleStore
      ⟨some "Bearer tok1", "", ("numGuests", .num (.fin 0)) :: fullBody⟩ (by decide)).2.2
      "tok1" ⟨"64b0000000000000000000a1", "asha@example.com"⟩ sampleUser
      (by decide) (by decide) (by decide)⟩

/-! ## `GET /api/bookings` -/

/-- C2: a request to `GET /api/bookings` whose token verifies is answered 200
with the stored bookings whose `userId` is the id embedded in the token, in
store order: the answer is a sub-sequence of the store, it holds every booking
of that id and no booking of another id; the store is not changed. -/
theorem getBookings_owned (lib : Lib) (st : Store) (req : Request) (token : String)
    (decoded : Payload)
    (hb : bearerToken req.authorization = some token)
    (hv : lib.verify token = some decoded) :
    ∃ bs, getBookings lib st req = (⟨200, .bookings bs⟩, st) ∧
      bs = st.bookings.filter (fun b => b.userId == decoded.id) ∧
      bs.Sublist st.bookings ∧
      (∀ b, b ∈ bs ↔ b ∈ st.bookings ∧ b.userId = decoded.id) := by
  refine ⟨st.bookings.filter (fun b => b.userId == decoded.id), ?_, rfl,
    List.filter_sublist _, ?_⟩
  · unfold getBookings
    simp [hb, hv]
  · intro b
    simp [List.mem_filter]

/-- Witness of C2: the bookings of `sampleUser` in `bookedStore`. -/
theorem getBookings_owned_witness :
    ∃ bs, getBookings sampleLib bookedStore ⟨some "Bearer tok1", "", []⟩
        = (⟨200, .bookings bs⟩, bookedStore) ∧
      bs = bookedStore.bookings.filter (fun b => b.userId == "64b0000000000000000000a1") ∧
      bs.Sublist bookedStore.bookings ∧
      (∀ b, b ∈ bs ↔ b ∈ bookedStore.bookings ∧ b.userId = "64b0000000000000000000a1") :=
  getBookings_owned sampleLib bookedStore ⟨some "Bearer tok1", "", []⟩ "tok1"
    ⟨"64b0000000000000000000a1", "asha@example.com"⟩ (by decide) (by decide)

/-! ## Tokens that fail verification -/

/-- C9 (counterexample): a token that fails verification is answered 400 by
`POST /api/feedback` and 500 by `POST /api/bookings` and `GET /api/bookings`. -/
theorem invalid_token_not_401 :
    bearerToken (some "Bearer bad") = some "bad" ∧ sampleLib.verify "bad" = none ∧
    (postFeedback sampleLib sampleStore ⟨some "Bearer bad", "", []⟩).1.status = 400 ∧
    (postBookings sampleLib sampleNewId sampleStore
      ⟨some "Bearer bad", "", fullBody⟩).1.status = 500 ∧
    (getBookings sampleLib sampleStore ⟨some "Bearer bad", "", []⟩).1.status = 500 := by
  decide

/-- C9 (amended): on the protected endpoints a request with no token is
answered 401; a request whose token fails verification is answered 400 by
`POST /api/feedback` and 500 by `POST /api/bookings` and `GET /api/bookings`.
The store is unchanged in each case. -/
theorem invalid_token_status (lib : Lib) (newId : Id) (st : Store) (req : Request) :
    (bearerToken req.authorization = none →
      postFeedback lib st req = (⟨401, .error "No token provided"⟩, st) ∧
      postBookings lib newId st req = (⟨401, .error "No token provided"⟩, st) ∧
      getBookings lib st req = (⟨401, .error "No token provided"⟩, st)) ∧
    (∀ token, bearerToken req.authorization = some token → lib.verify token = none →
      postFeedback lib st req = (⟨400, .error "Error adding feedback"⟩, st) ∧
      postBookings lib newId st req = (⟨500, .error "Failed to save booking"⟩, st) ∧
      getBookings lib st req = (⟨500, .error "Error fetching bookings"⟩, st)) := by
  constructor
  · intro hb
    simp [postFeedback, postBookings, getBookings, hb]
  · intro token hb hv
    simp [postFeedback, postBookings, getBookings, hb, hv]

/-- Witness of C9 (amended): no header, and a header whose token does not
verify. -/
theorem invalid_token_status_witness :
    (postFeedback sampleLib sampleStore ⟨none, "", []⟩ =
        (⟨401, .error "No token provided"⟩, sampleStore) ∧
      postBookings sampleLib sampleNewId sampleStore ⟨none, "", []⟩ =
        (⟨401, .error "No token provided"⟩, sampleStore) ∧
      getBookings sampleLib sampleStore ⟨none, "", []⟩ =
        (⟨401, .error "No token provided"⟩, sampleStore)) ∧
    (postFeedback sampleLib sampleStore ⟨some "Bearer bad", "", []⟩ =
        (⟨400, .error "Error adding feedback"⟩, sampleStore) ∧
      postBookings sampleLib sampleNewId sampleStore ⟨some "Bearer bad", "", []⟩ =
        (⟨500, .error "Failed to save booking"⟩, sampleStore) ∧
      getBookings sampleLib sampleStore ⟨some "Bearer bad", "", []⟩ =
        (⟨500, .error "Error fetching bookings"⟩, sampleStore)) :=
  ⟨(invalid_token_status sampleLib sampleNewId sampleStore ⟨none, "", []⟩).1 (by decide),
    (invalid_token_status sampleLib sampleNewId sampleStore ⟨some "Bearer bad", "", []⟩).2 "bad"
      (by decide) (by decide)⟩

/-! ## `POST /api/auth/login` -/

theorem find?_email_of_nodup (users : List UserDoc) (u : UserDoc)
    (hnd : (users.map (fun v => v.email)).Nodup) (hu : u ∈ users) :
    users.find? (fun v => v.email == u.email) = some u := by
  induction users with
  | nil => simp at hu
  | cons v vs ih =>
    simp only [List.map_cons, List.nodup_cons, List.mem_map, not_exists, not_and] at hnd
    rcases List.mem_cons.1 hu with rfl | hmem
    · simp [List.find?]
    · have hne : v.email ≠ u.email := fun he => hnd.1 u hmem he.symm
      have hb : (v.email == u.email) = false := by simpa using hne
      simp only [List.find?, hb]
      exact ih hnd.2 hmem

/-- The email filter of a primitive value: the users whose email is its cast. -/
theorem findUserByEmail_prim (lib : Lib) (users : List UserDoc) (v : JsVal)
    (hprim : ∀ j, v ≠ .other j) :
    findUserByEmail lib users v =
      match castString lib v with
      | some (some e) => some (users.find? (fun u => u.email == e))
      | _ => some none := by
  cases v with
  | other j => exact absurd rfl (hprim j)
  | undefined => simp [findUserByEmail, stringFilter, castString]
  | null => simp [findUserByEmail, stringFilter, castString]
  | bool b => simp [findUserByEmail, stringFilter, castString]
  | num x => simp [findUserByEmail, stringFilter, castString]
  | str s => simp [findUserByEmail, stringFilter, castString]

/-- C6 (counterexample): a login whose email is the query operator object with
`$gt` of `''` and whose password is the password of the first stored user is
answered 200 with a token, though no stored user has the submitted email. -/
theorem operator_email_logs_in :
    (∀ u ∈ sampleStore.users, JsVal.str u.email ≠ JsVal.other gtEmpty) ∧
    postLogin sampleLib sampleStore
        ⟨none, "", [("email", .other gtEmpty), ("password", .str "pw1")]⟩ =
      (⟨200, .login "Login successful"
        (sampleLib.sign ⟨"64b0000000000000000000a1", "asha@example.com"⟩ "1h") "Asha"⟩,
        sampleStore) := by
  decide!

/-- C6 (amended): a `POST /api/auth/login` whose email is not an object or an
array succeeds exactly when the user store (emails unique, by the index of
`userSchema`) holds a user with the submitted email whose stored password is
the submitted password.  For such a user the answer is 200 with the user's name
and a token signed over the user's id and email with expiry `'1h'`; when there
is no such user the answer is 400 `Invalid credentials` and carries no token.
The store is unchanged. -/
theorem login_iff_credentials (lib : Lib) (st : Store) (req : Request)
    (hnd : (st.users.map (fun v => v.email)).Nodup)
    (hprim : ∀ j, req.body.field "email" ≠ .other j) :
    (∀ u ∈ st.users, castString lib (req.body.field "email") = some (some u.email) →
      req.body.field "password" = .str u.password →
      postLogin lib st req =
        (⟨200, .login "Login successful" (lib.sign ⟨u._id, u.email⟩ "1h") u.name⟩, st)) ∧
    ((¬ ∃ u ∈ st.users, castString lib (req.body.field "email") = some (some u.email) ∧
        req.body.field "password" = .str u.password) →
      postLogin lib st req = (⟨400, .message "Invalid credentials"⟩, st)) ∧
    ((postLogin lib st req).1.status = 200 ↔
      ∃ u ∈ st.users, castString lib (req.body.field "email") = some (some u.email) ∧
        req.body.field "password" = .str u.password) := by
  have hfind := findUserByEmail_prim lib st.users (req.body.field "email") hprim
  have hpos : ∀ u ∈ st.users, castString lib (req.body.field "email") = some (some u.email) →
      req.body.field "password" = .str u.password →
      postLogin lib st req =
        (⟨200, .login "Login successful" (lib.sign ⟨u._id, u.email⟩ "1h") u.name⟩, st) := by
    intro u hu he hpw
    have hf : findUserByEmail lib st.users (req.body.field "email") = some (some u) := by
      rw [hfind, he]
      simp only
      rw [find?_email_of_nodup st.users u hnd hu]
    have hs : strictEq (.str u.password) (req.body.field "password") = true :=
      (strictEq_str _ _).2 hpw
    simp [postLogin, hf, hs]
  have hneg : (¬ ∃ u ∈ st.users,
        castString lib (req.body.field "email") = some (some u.email) ∧
        req.body.field "password" = .str u.password) →
      postLogin lib st req = (⟨400, .message "Invalid credentials"⟩, st) := by
    intro hno
    unfold postLogin
    cases hf : findUserByEmail lib st.users (req.body.field "email") with
    | none =>
      rw [hfind] at hf
      split at hf <;> simp at hf
    | some found =>
      cases found with
      | none => simp [hf]
      | some user =>
        have hs : strictEq (.str user.password) (req.body.field "password") = false := by
          cases hs : strictEq (.str user.password) (req.body.field "password") with
          | false => rfl
          | true =>
            exfalso
            apply hno
            rw [hfind] at hf
            split at hf
            · rename_i e hc
              simp only [Option.some.injEq] at hf
              have hm := List.mem_of_find?_eq_some hf
              have hp := List.find?_some hf
              have he : user.email = e := by simpa using hp
              exact ⟨user, hm, by rw [hc, he], (strictEq_str _ _).1 hs⟩
            · simp at hf
        simp [hf, hs]
  refine ⟨hpos, hneg, ?_⟩
  constructor
  · intro h200
    by_contra hno
    rw [hneg hno] at h200
    simp at h200
  · rintro ⟨u, hu, he, hpw⟩
    rw [hpos u hu he hpw]

/-- Witness of C6 (amended): the login of `sampleUser`. -/
theorem login_iff_credentials_witness :
    (sampleStore.users.map (fun v => v.email)).Nodup ∧
    postLogin sampleLib sampleStore
        ⟨none, "", [("email", .str "asha@example.com"), ("password", .str "pw1")]⟩ =
      (⟨200, .login "Login successful"
        (sampleLib.sign ⟨"64b0000000000000000000a1", "asha@example.com"⟩ "1h") "Asha"⟩,
        sampleStore) :=
  ⟨by decide,
    (login_iff_credentials sampleLib sampleStore
      ⟨none, "", [("email", .str "asha@example.com"), ("password", .str "pw1")]⟩
      (by decide) (by intro j; simp [Obj.field])).1 sampleUser (by decide) (by decide)
      (by decide)⟩

/-! ## `POST /api/auth/signup` -/

theorem findUserByEmail_of_mem (lib : Lib) (users : List UserDoc) (u : UserDoc)
    (hu : u ∈ users) : ∃ v, findUserByEmail lib users (.str u.email) = some (some v) := by
  simp only [findUserByEmail, stringFilter, castString]
  cases hf : users.find? (fun v => v.email == u.email) with
  | some v => exact ⟨v, rfl⟩
  | none =>
    have hn := List.find?_eq_none.1 hf u hu
    simp at hn

/-- The first signup of a user: the document stored from a body of non-empty
strings when no stored user has the email or the username. -/
theorem postSignup_fresh (lib : Lib) (newId : Id) (st : Store) (req : Request)
    (username name email phone address aadhar password : String)
    (h1 : req.body.field "username" = .str username) (n1 : username ≠ "")
    (h2 : req.body.field "name" = .str name) (n2 : name ≠ "")
    (h3 : req.body.field "email" = .str email) (n3 : email ≠ "")
    (h4 : req.body.field "phone" = .str phone) (n4 : phone ≠ "")
    (h5 : req.body.field "address" = .str address) (n5 : address ≠ "")
    (h6 : req.body.field "aadhar" = .str aadhar) (n6 : aadhar ≠ "")
    (h7 : req.body.field "password" = .str password) (n7 : password ≠ "")
    (hfresh : ∀ u ∈ st.users, u.email ≠ email ∧ u.username ≠ username) :
    postSignup lib newId st req =
      (⟨201, .message "User registered successfully"⟩,
        { st with users := st.users ++
          [⟨newId, username, name, email, phone, address, aadhar, password⟩] }) := by
  have hf : findUserByEmail lib st.users (.str email) = some none := by
    simp only [findUserByEmail, stringFilter, castString, Option.some.injEq]
    rw [List.find?_eq_none]
    intro u hu
    simpa using (hfresh u hu).1
  have hc : castUser lib newId req.body =
      some ⟨newId, username, name, email, phone, address, aadhar, password⟩ := by
    unfold castUser
    rw [h1, h2, h3, h4, h5, h6, h7, requiredString_of_ne lib _ n1, requiredString_of_ne lib _ n2,
      requiredString_of_ne lib _ n3, requiredString_of_ne lib _ n4,
      requiredString_of_ne lib _ n5, requiredString_of_ne lib _ n6,
      requiredString_of_ne lib _ n7]
    rfl
  have hv : uniqueViolation st.users
      ⟨newId, username, name, email, phone, address, aadhar, password⟩ = false := by
    simp only [uniqueViolation, List.any_eq_false, Bool.or_eq_true, beq_iff_eq, not_or]
    intro u hu
    exact ⟨(hfresh u hu).2, (hfresh u hu).1⟩
  unfold postSignup
  simp [h3, hf, hc, hv]

/-- C7: signing up twice with the same email.  A `POST /api/auth/signup` whose
email is the email of a stored user is answered 400 and leaves the store
unchanged; the first signup with an email (the seven required fields non-empty
strings, no stored user with that email or username) is answered 201 and adds
exactly one user holding the submitted fields, after which every signup with
that email is answered 400 and changes nothing. -/
theorem signup_same_email (lib : Lib) (newId : Id) (st : Store) (req : Request) :
    (∀ u ∈ st.users, req.body.field "email" = .str u.email →
      postSignup lib newId st req = (⟨400, .message "User already exists"⟩, st)) ∧
    (∀ username name email phone address aadhar password : String,
      req.body.field "username" = .str username → username ≠ "" →
      req.body.field "name" = .str name → name ≠ "" →
      req.body.field "email" = .str email → email ≠ "" →
      req.body.field "phone" = .str phone → phone ≠ "" →
      req.body.field "address" = .str address → address ≠ "" →
      req.body.field "aadhar" = .str aadhar → aadhar ≠ "" →
      req.body.field "password" = .str password → password ≠ "" →
      (∀ u ∈ st.users, u.email ≠ email ∧ u.username ≠ username) →
      postSignup lib newId st req =
        (⟨201, .message "User registered successfully"⟩,
          { st with users := st.users ++
            [⟨newId, username, name, email, phone, address, aadhar, password⟩] }) ∧
      ∀ (newId2 : Id) (req2 : Request), req2.body.field "email" = .str email →
        postSignup lib newId2 (postSignup lib newId st req).2 req2 =
          (⟨400, .message "User already exists"⟩, (postSignup lib newId st req).2)) := by
  have hdup : ∀ (id : Id) (s : Store) (r : Request), ∀ u ∈ s.users,
      r.body.field "email" = .str u.email →
      postSignup lib id s r = (⟨400, .message "User already exists"⟩, s) := by
    intro id s r u hu he
    obtain ⟨v, hv⟩ := findUserByEmail_of_mem lib s.users u hu
    unfold postSignup
    simp [he, hv]
  refine ⟨hdup newId st req, ?_⟩
  intro username name email phone address aadhar password h1 n1 h2 n2 h3 n3 h4 n4 h5 n5 h6 n6
    h7 n7 hfresh
  have hfirst := postSignup_fresh lib newId st req username name email phone address aadhar
    password h1 n1 h2 n2 h3 n3 h4 n4 h5 n5 h6 n6 h7 n7 hfresh
  refine ⟨hfirst, ?_⟩
  intro newId2 req2 he2
  rw [hfirst]
  exact hdup newId2 _ req2 ⟨newId, username, name, email, phone, address, aadhar, password⟩
    (by simp) he2

/-- Witness of C7: a first signup, and a signup with a stored email. -/
theorem signup_same_email_witness :
    postSignup sampleLib "64b0000000000000000000a2" sampleStore ⟨none, "", signupBody⟩ =
      (⟨201, .message "User registered successfully"⟩,
        { sampleStore with users := sampleStore.users ++
          [⟨"64b0000000000000000000a2", "ravi", "Ravi", "ravi@example.com", "9000000002",
            "3 Hill Street", "2345-6789-0123", "pw2"⟩] }) ∧
    postSignup sampleLib "64b0000000000000000000a3" sampleStore
        ⟨none, "", [("email", .str "asha@example.com")]⟩ =
      (⟨400, .message "User already exists"⟩, sampleStore) :=
  ⟨((signup_same_email sampleLib "64b0000000000000000000a2" sampleStore
      ⟨none, "", signupBody⟩).2
      "ravi" "Ravi" "ravi@example.com" "9000000002" "3 Hill Street" "2345-6789-0123" "pw2"
      (by decide) (by decide) (by decide) (by decide) (by decide) (by decide) (by decide)
      (by decide) (by decide) (by decide) (by decide) (by decide) (by decide) (by decide)
      (by decide)).1,
    (signup_same_email sampleLib "64b0000000000000000000a3" sampleStore
      ⟨none, "", [("email", .str "asha@example.com")]⟩).1 sampleUser (by decide) (by decide)⟩

/-- Signup keeps the emails of the user store pairwise distinct. -/
theorem postSignup_emails_nodup (lib : Lib) (newId : Id) (st : Store) (req : Request)
    (hnd : (st.users.map (fun v => v.email)).Nodup) :
    ((postSignup lib newId st req).2.users.map (fun v => v.email)).Nodup := by
  unfold postSignup
  cases hf : findUserByEmail lib st.users (req.body.field "email") with
  | none => simpa [hf] using hnd
  | some found =>
    cases found with
    | some _ => simpa [hf] using hnd
    | none =>
      cases hc : castUser lib newId req.body with
      | none => simpa [hf, hc] using hnd
      | some user =>
        cases hv : uniqueViolation st.users user with
        | true => simpa [hf, hc, hv] using hnd
        | false =>
          simp only [hf, hc, hv, Bool.false_eq_true, if_false, List.map_append, List.map_cons,
            List.map_nil]
          rw [List.nodup_append]
          refine ⟨hnd, List.nodup_singleton _, ?_⟩
          simp only [uniqueViolation, List.any_eq_false, Bool.or_eq_true, beq_iff_eq,
            not_or] at hv
          intro e he1 he2
          simp only [List.mem_singleton] at he2
          simp only [List.mem_map] at he1
          obtain ⟨u, hu, hue⟩ := he1
          exact (hv u hu).2 (hue.trans he2)

/-! ## `POST /api/hotels/:id/reviews` -/

/-- The store around the first hotel of an id, and what `saveHotel` replaces. -/
theorem saveHotel_split (hotels : List HotelDoc) (id : Id) (hotel : HotelDoc)
    (hf : hotels.find? (fun h => h._id == id) = some hotel) :
    hotel._id = id ∧ ∃ pre post, hotels = pre ++ hotel :: post ∧ (∀ h ∈ pre, h._id ≠ id) ∧
      ∀ hotel2 : HotelDoc, hotel2._id = id → saveHotel hotel2 hotels = pre ++ hotel2 :: post := by
  induction hotels with
  | nil => simp at hf
  | cons h hs ih =>
    by_cases hid : h._id = id
    · have hb : (h._id == id) = true := by simpa using hid
      simp only [List.find?, hb, Option.some.injEq] at hf
      subst hf
      refine ⟨hid, [], hs, rfl, by simp, ?_⟩
      intro hotel2 h2
      simp [saveHotel, h2, hid]
    · have hb : (h._id == id) = false := by simpa using hid
      simp only [List.find?, hb] at hf
      obtain ⟨he, pre, post, hsplit, hpre, hsave⟩ := ih hf
      refine ⟨he, h :: pre, post, by rw [hsplit]; rfl, ?_, ?_⟩
      · intro x hx
        rcases List.mem_cons.1 hx with rfl | hx
        · exact hid
        · exact hpre x hx
      · intro hotel2 h2
        have hb2 : (h._id == hotel2._id) = false := by rw [h2]; exact hb
        simp only [saveHotel, hb2, Bool.false_eq_true, if_false, List.cons_append]
        rw [hsave hotel2 h2]

/-- C8 (counterexample): two reviews that are answered 500.  The id `h9` is the
id of no stored hotel and is not a well-formed ObjectId: the answer is 500, not
404.  The id of `sampleHotel` with a body that has an empty reviewer, a comment
and a rating: the answer is 500 and no review is appended. -/
theorem review_not_appended :
    ((∀ h ∈ sampleStore.hotels, h._id ≠ "h9") ∧
      postReview sampleLib sampleStore ⟨none, "h9", reviewBody⟩ =
        (⟨500, .message "Error adding review"⟩, sampleStore)) ∧
    (sampleHotel ∈ sampleStore.hotels ∧
      postReview sampleLib sampleStore ⟨none, sampleHotel._id,
          [("reviewer", .str ""), ("comment", .str "Quiet"), ("rating", .num (.fin 5))]⟩ =
        (⟨500, .message "Error adding review"⟩, sampleStore)) := by
  decide!

/-- C8 (amended): a `POST /api/hotels/:id/reviews` whose id is a well-formed
ObjectId that names a stored hotel and whose body has a reviewer and a comment
that cast to non-empty strings and a rating that casts to a number leaves the
store as it was except for the review list of that hotel, which is the list
before the call followed by the one new entry of the cast reviewer, comment and
rating (the submitted values when they are non-empty strings and a number);
the answer is 201 with the submitted review.  When the id is a well-formed
ObjectId that no hotel has, the answer is 404, and when the id is not a
well-formed ObjectId the answer is 500; the store is unchanged in both cases. -/
theorem review_appended (lib : Lib) (st : Store) (req : Request) :
    (∀ (oid : Id) (hotel : HotelDoc) (r c : String) (q : Dbl),
      lib.castObjectId (.str req.paramId) = some oid →
      st.hotels.find? (fun h => h._id == oid) = some hotel →
      requiredString lib (req.body.field "reviewer") = some r →
      requiredString lib (req.body.field "comment") = some c →
      requiredNumber lib (req.body.field "rating") = some q →
      ∃ pre post, st.hotels = pre ++ hotel :: post ∧ (∀ h ∈ pre, h._id ≠ oid) ∧
        hotel._id = oid ∧
        postReview lib st req =
          (⟨201, .review "Review added" (toJson (req.body.field "reviewer"))
            (toJson (req.body.field "comment")) (toJson (req.body.field "rating"))⟩,
            { st with hotels :=
              pre ++ { hotel with reviews := hotel.reviews ++ [⟨r, c, q⟩] } :: post })) ∧
    (∀ (r c : String) (x : Dbl), r ≠ "" → c ≠ "" → x ≠ .nan →
      requiredString lib (.str r) = some r ∧ requiredString lib (.str c) = some c ∧
      requiredNumber lib (.num x) = some x ∧
      toJson (.str r) = .str r ∧ toJson (.str c) = .str c ∧
      (∀ y : ℚ, x = .fin y → toJson (.num x) = .num x)) ∧
    (∀ oid : Id, lib.castObjectId (.str req.paramId) = some oid →
      (∀ h ∈ st.hotels, h._id ≠ oid) →
      postReview lib st req = (⟨404, .message "Hotel not found"⟩, st)) ∧
    (lib.castObjectId (.str req.paramId) = none →
      postReview lib st req = (⟨500, .message "Error adding review"⟩, st)) := by
  refine ⟨?_, ?_, ?_, ?_⟩
  · intro oid hotel r c q hoid hf h1 h2 h3
    obtain ⟨hid, pre, post, hsplit, hpre, hsave⟩ := saveHotel_split st.hotels oid hotel hf
    refine ⟨pre, post, hsplit, hpre, hid, ?_⟩
    have hfind : findHotelById lib st.hotels req.paramId = some (some hotel) := by
      simp [findHotelById, hoid, hf]
    have hc : castReview lib (req.body.field "reviewer") (req.body.field "comment")
        (req.body.field "rating") = some ⟨r, c, q⟩ := by
      unfold castReview
      rw [h1, h2, h3]
      rfl
    unfold postReview
    simp only [hfind, hc]
    rw [hsave { hotel with reviews := hotel.reviews ++ [⟨r, c, q⟩] } hid]
  · intro r c x hr hc hx
    refine ⟨requiredString_of_ne lib r hr, requiredString_of_ne lib c hc,
      (requiredNumber_num lib x x).2 ⟨hx, rfl⟩, rfl, rfl, ?_⟩
    intro y hy
    rw [hy]
    rfl
  · intro oid hoid hnone
    have hf : findHotelById lib st.hotels req.paramId = some none := by
      simp only [findHotelById, hoid, Option.some.injEq]
      rw [List.find?_eq_none]
      intro h hh
      simpa using hnone h hh
    unfold postReview
    simp [hf]
  · intro hoid
    have hf : findHotelById lib st.hotels req.paramId = none := by
      simp [findHotelById, hoid]
    unfold postReview
    simp [hf]

/-- Witness of C8 (amended): a review of `sampleHotel`, and a review of a
well-formed id that no hotel has. -/
theorem review_appended_witness :
    (∃ pre post, sampleStore.hotels = pre ++ sampleHotel :: post ∧
      (∀ h ∈ pre, h._id ≠ "64b0000000000000000000b1") ∧
      sampleHotel._id = "64b0000000000000000000b1" ∧
      postReview sampleLib sampleStore ⟨none, "64b0000000000000000000b1", reviewBody⟩ =
        (⟨201, .review "Review added" (toJson (reviewBody.field "reviewer"))
          (toJson (reviewBody.field "comment")) (toJson (reviewBody.field "rating"))⟩,
          { sampleStore with hotels :=
            pre ++ { sampleHotel with
              reviews := sampleHotel.reviews ++ [⟨"Mina", "Quiet", .fin 5⟩] } :: post })) ∧
    postReview sampleLib sampleStore ⟨none, "64b0000000000000000000b9", reviewBody⟩ =
      (⟨404, .message "Hotel not found"⟩, sampleStore) :=
  ⟨(review_appended sampleLib sampleStore ⟨none, "64b0000000000000000000b1", reviewBody⟩).1
      "64b0000000000000000000b1" sampleHotel "Mina" "Quiet" (.fin 5)
      (by decide) (by decide!) (by decide) (by decide) (by decide),
    (review_appended sampleLib sampleStore
      ⟨none, "64b0000000000000000000b9", reviewBody⟩).2.2.1 "64b0000000000000000000b9"
      (by decide) (by decide)⟩

end HotelBackend
